import Mathlib

/-! Verification of vusec/uncontained-linux: `container_of` and the Intel VSEC/DVSEC enumerator.

A shallow embedding of

* `include/linux/container_of.h` (`container_of`, `container_of_safe` and their
  `__uncontained_*` bodies),
* `drivers/platform/x86/intel/vsec.c` (`intel_vsec_add_dev`, `intel_vsec_add_aux`,
  `intel_vsec_walk_dvsec`, `intel_vsec_walk_vsec`),
* the `container_of` copies of `srcu-cbmc/src/misc.h` and `rtla/src/utils.h`,
* `drivers/gpu/drm/i915/gem/selftests/mock_dmabuf.c` (`mock_dmabuf`, `mock_dmabuf_release`),
  and
* `drivers/platform/x86/x86-android-tablets.c` (`x86_android_tablet_init` and what it
  calls).

Conventions.  Pointers, `unsigned long`, `size_t` and `resource_size_t` are 64-bit words,
represented as natural numbers with an explicit `% 2 ^ 64` wherever the C operation can
wrap.  Kernel services the driver calls (allocators, the IDA, the auxiliary bus, devres)
are external: each call appends an `Event` to a trace, and its return value is given by an
arbitrary function `env` of the trace so far.  Loops that the C code runs until a `break`
take a `fuel` argument and return `none` when it runs out.

The file has two parts: all definitions (the embedding, the vocabulary of the statements,
auxiliary definitions of the proofs, concrete inputs), then all theorems.
-/

namespace Uncontained

/-! ## Machine words -/

/-- Number of values of an `unsigned long` / pointer (`BITS_PER_LONG = 64`). -/
def WORD : Nat := 2 ^ 64

/-- Truncation to `unsigned long`. -/
def ulong (x : Nat) : Nat := x % WORD

/-- Truncation to `u32`. -/
def u32 (x : Nat) : Nat := x % 2 ^ 32

/-- Truncation to `u16`. -/
def u16 (x : Nat) : Nat := x % 2 ^ 16

/-- Truncation to `u8`. -/
def u8 (x : Nat) : Nat := x % 2 ^ 8

/-- Word subtraction `a - b` on `unsigned long` (also pointer minus byte offset). -/
def wsub (a b : Nat) : Nat := (ulong a + (WORD - ulong b)) % WORD

/-- Conversion of a C `int`/`long` to `unsigned long` (two's complement, 64 bits). -/
def int_to_ulong (x : Int) : Nat := (x % 2 ^ 64).toNat

/-! ## `include/linux/err.h` (not part of the sources at hand) -/

/-- Modelled from the spec: `MAX_ERRNO` of `include/linux/err.h`, which is not among the
sources; the error range is the last 4095 addresses. -/
def MAX_ERRNO : Nat := 4095

/-- Modelled from the spec: `IS_ERR_VALUE(x)` of `include/linux/err.h`, i.e.
`(unsigned long)(void *)(x) >= (unsigned long)-MAX_ERRNO`. -/
def IS_ERR_VALUE (x : Nat) : Bool := decide (wsub 0 MAX_ERRNO ≤ ulong x)

/-- Modelled from the spec: `IS_ERR_OR_NULL(ptr)` of `include/linux/err.h`, i.e.
`!ptr || IS_ERR_VALUE((unsigned long)ptr)`. -/
def IS_ERR_OR_NULL (ptr : Nat) : Bool := (ptr == 0) || IS_ERR_VALUE ptr

/-- Modelled from the spec: `ERR_CAST(ptr)` of `include/linux/err.h`, a cast to `void *`
that keeps the address. -/
def ERR_CAST (ptr : Nat) : Nat := ptr

/-! ## `include/linux/container_of.h` -/

/-- The four `static volatile unsigned long` globals of `container_of.h`. -/
structure ContainerOfGlobals where
  __container_of_type_in : Nat
  __container_of_type_out : Nat
  __container_of_ptr_in : Nat
  __container_of_ptr_out : Nat
  deriving DecidableEq, Repr

/-- Body of `__uncontained_container_of(ptr, type, member)`: `__mptr - offsetof(type, member)`,
with `off = offsetof(type, member)`.  The `static_assert` is a compile-time check. -/
def __uncontained_container_of (ptr off : Nat) : Nat :=
  let __mptr := ptr
  wsub __mptr off

/-- Body of `__uncontained_container_of_safe(ptr, type, member)`. -/
def __uncontained_container_of_safe (ptr off : Nat) : Nat :=
  let __mptr := ptr
  if IS_ERR_OR_NULL __mptr then ERR_CAST __mptr else wsub __mptr off

/-- The argument `ptr` of a `container_of` macro call, as far as C operator precedence
matters to the expansion of the macro.
`primary value`: an expression to which a cast written in front of it applies as a whole (an
identifier, `&x->m`, `p->m`, a call, anything in parentheses), given by its value.
`sum q n size`: the expression `q + n` (or `q - m`, for `n = -m`), where `q` is such an
expression, a pointer of value `q` to objects of `size` bytes, and `n` is an integer. -/
inductive arg_expr where
  | primary (value : Nat)
  | sum (q : Nat) (n : Int) (size : Nat)
  deriving DecidableEq, Repr

/-- Value of `(ptr)`, the argument in parentheses, which is how the `__uncontained_*` bodies
use it; `q + n` is pointer arithmetic. -/
def arg_expr.value : arg_expr → Nat
  | .primary value => value
  | .sum q n size => int_to_ulong ((q : Int) + n * (size : Int))

/-- Value of `(unsigned long)ptr`, which is how the `KASAN_ENABLED` wrappers write it, with
no parentheses around `ptr`: in `(unsigned long)q + n` the cast applies to `q` only and the
sum is taken in `unsigned long`. -/
def arg_expr.cast_ulong : arg_expr → Nat
  | .primary value => ulong value
  | .sum q n _ => int_to_ulong ((q : Int) + n)

/-- The macro `container_of(ptr, type, member)` applied to the argument expression `ptr`.
`kasan` says whether `KASAN_ENABLED` is defined; `a_in` and `a_out` are the stack addresses
of the two temporaries `__tmp_type_in` and `__tmp_ptr_out`.  Returns the value of the
expression and the globals afterwards. -/
def container_of_expr (kasan : Bool) (a_in a_out : Nat) (g : ContainerOfGlobals)
    (ptr : arg_expr) (off : Nat) : Nat × ContainerOfGlobals :=
  if kasan then
    let __tmp_ptr_out := __uncontained_container_of ptr.value off
    let g := { g with __container_of_ptr_in := ptr.cast_ulong }
    let g := { g with __container_of_type_in := ulong a_in }
    let g := { g with __container_of_type_out := ulong a_out }
    let g := { g with __container_of_ptr_out := ulong __tmp_ptr_out }
    (g.__container_of_ptr_out, g)
  else
    (__uncontained_container_of ptr.value off, g)

/-- The macro `container_of(ptr, type, member)` for an argument that is a primary expression
of value `ptr` (see `arg_expr`); the other arguments as for `container_of_expr`. -/
def container_of (kasan : Bool) (a_in a_out : Nat) (g : ContainerOfGlobals) (ptr off : Nat) :
    Nat × ContainerOfGlobals :=
  container_of_expr kasan a_in a_out g (arg_expr.primary ptr) off

/-- The macro `container_of_safe(ptr, type, member)` applied to the argument expression
`ptr`, see `container_of_expr`. -/
def container_of_safe_expr (kasan : Bool) (a_in a_out : Nat) (g : ContainerOfGlobals)
    (ptr : arg_expr) (off : Nat) : Nat × ContainerOfGlobals :=
  if kasan then
    let __tmp_ptr_out := __uncontained_container_of_safe ptr.value off
    let g := { g with __container_of_ptr_in := ptr.cast_ulong }
    let g := { g with __container_of_type_in := ulong a_in }
    let g := { g with __container_of_type_out := ulong a_out }
    let g := { g with __container_of_ptr_out := ulong __tmp_ptr_out }
    (g.__container_of_ptr_out, g)
  else
    (__uncontained_container_of_safe ptr.value off, g)

/-- The macro `container_of_safe(ptr, type, member)` for an argument that is a primary
expression of value `ptr`, see `container_of`. -/
def container_of_safe (kasan : Bool) (a_in a_out : Nat) (g : ContainerOfGlobals)
    (ptr off : Nat) : Nat × ContainerOfGlobals :=
  container_of_safe_expr kasan a_in a_out g (arg_expr.primary ptr) off

/-! ## Constants and macros `vsec.c` takes from headers that are not among the sources -/

/-- Modelled from the spec: `EINVAL` of `errno-base.h`. -/
def EINVAL : Int := 22

/-- Modelled from the spec: `ENOMEM` of `errno-base.h`. -/
def ENOMEM : Int := 12

/-- Modelled from the spec: `GENMASK(h, l)` of `include/linux/bits.h` with
`BITS_PER_LONG = 64`:
`((~0UL) - (1UL << l) + 1) & (~0UL >> (BITS_PER_LONG - 1 - h))`. -/
def GENMASK (h l : Nat) : Nat :=
  ulong ((WORD - 1) - ulong (1 <<< l) + 1) &&& ((WORD - 1) >>> (64 - 1 - h))

/-- Modelled from the spec: `PCI_EXT_CAP_ID_VNDR` of `pci_regs.h`. -/
def PCI_EXT_CAP_ID_VNDR : Nat := 0x0B

/-- Modelled from the spec: `PCI_EXT_CAP_ID_DVSEC` of `pci_regs.h`. -/
def PCI_EXT_CAP_ID_DVSEC : Nat := 0x23

/-- Modelled from the spec: `PCI_VENDOR_ID_INTEL` of `pci_ids.h`. -/
def PCI_VENDOR_ID_INTEL : Nat := 0x8086

/-- Modelled from the spec: `PCI_VNDR_HEADER` of `pci_regs.h`. -/
def PCI_VNDR_HEADER : Nat := 4

/-- Modelled from the spec: `PCI_VNDR_HEADER_ID(x)` of `pci_regs.h`. -/
def PCI_VNDR_HEADER_ID (x : Nat) : Nat := x &&& 0xffff

/-- Modelled from the spec: `PCI_VNDR_HEADER_REV(x)` of `pci_regs.h`. -/
def PCI_VNDR_HEADER_REV (x : Nat) : Nat := (x >>> 16) &&& 0xf

/-- Modelled from the spec: `PCI_VNDR_HEADER_LEN(x)` of `pci_regs.h`. -/
def PCI_VNDR_HEADER_LEN (x : Nat) : Nat := (x >>> 20) &&& 0xfff

/-- Modelled from the spec: `PCI_DVSEC_HEADER1` of `pci_regs.h`. -/
def PCI_DVSEC_HEADER1 : Nat := 0x4

/-- Modelled from the spec: `PCI_DVSEC_HEADER1_VID(x)` of `pci_regs.h`. -/
def PCI_DVSEC_HEADER1_VID (x : Nat) : Nat := x &&& 0xffff

/-- Modelled from the spec: `PCI_DVSEC_HEADER1_REV(x)` of `pci_regs.h`. -/
def PCI_DVSEC_HEADER1_REV (x : Nat) : Nat := (x >>> 16) &&& 0xf

/-- Modelled from the spec: `PCI_DVSEC_HEADER1_LEN(x)` of `pci_regs.h`. -/
def PCI_DVSEC_HEADER1_LEN (x : Nat) : Nat := (x >>> 20) &&& 0xfff

/-- Modelled from the spec: `PCI_DVSEC_HEADER2` of `pci_regs.h`. -/
def PCI_DVSEC_HEADER2 : Nat := 0x8

/-- Modelled from the spec: `PCI_DVSEC_HEADER2_ID(x)` of `pci_regs.h`. -/
def PCI_DVSEC_HEADER2_ID (x : Nat) : Nat := x &&& 0xffff

/-- Modelled from the spec: `IORESOURCE_MEM` of `include/linux/ioport.h`. -/
def IORESOURCE_MEM : Nat := 0x00000200

/-- Modelled from the spec: `VSEC_QUIRK_NO_WATCHER = BIT(0)` of `vsec.h`. -/
def VSEC_QUIRK_NO_WATCHER : Nat := 1 <<< 0

/-- Modelled from the spec: `VSEC_QUIRK_NO_CRASHLOG = BIT(1)` of `vsec.h`. -/
def VSEC_QUIRK_NO_CRASHLOG : Nat := 1 <<< 1

/-- Modelled from the spec: `VSEC_QUIRK_TABLE_SHIFT = BIT(2)` of `vsec.h`. -/
def VSEC_QUIRK_TABLE_SHIFT : Nat := 1 <<< 2

/-! ## `drivers/platform/x86/intel/vsec.c`: data -/

def INTEL_DVSEC_ENTRIES : Nat := 0xA
def INTEL_DVSEC_SIZE : Nat := 0xB
def INTEL_DVSEC_TABLE : Nat := 0xC
def INTEL_DVSEC_TABLE_BAR (x : Nat) : Nat := x &&& GENMASK 2 0
def INTEL_DVSEC_TABLE_OFFSET (x : Nat) : Nat := x &&& GENMASK 31 3
def TABLE_OFFSET_SHIFT : Nat := 3

/-- The `struct intel_vsec_header`. -/
structure intel_vsec_header where
  rev : Nat
  length : Nat
  id : Nat
  num_entries : Nat
  entry_size : Nat
  tbir : Nat
  offset : Nat
  deriving DecidableEq, Repr

/-- The fields of `struct resource` the driver writes. -/
structure resource where
  start : Nat
  end_ : Nat
  flags : Nat
  deriving DecidableEq, Repr

/-- Modelled from the spec: `struct intel_vsec_device` of `vsec.h`, as far as `vsec.c`
fills it in (`pcidev` and `ida` always point to the probed device and to `intel_vsec_ida`). -/
structure intel_vsec_device where
  auxdev_id : Int
  auxdev_name : Option String
  resource : List resource
  num_resources : Nat
  quirks : Nat
  deriving DecidableEq, Repr

/-- One entry of a device's extended-capability list: its config-space position and its
capability id. -/
structure ext_cap where
  pos : Nat
  id : Nat
  deriving DecidableEq, Repr

/-- What the driver uses of a `struct pci_dev`: `resource[i].start`, the extended
capability list, and the configuration space as seen by dword and byte reads. -/
structure pci_dev where
  resource_start : Nat → Nat
  ext_caps : List ext_cap
  config_dword : Nat → Nat
  config_byte : Nat → Nat

/-- Calls that leave `vsec.c`, with their arguments and results, in program order.  The two
constructors `call_intel_vsec_add_dev` and `ret_intel_vsec_add_dev` record, at the call
sites in the walkers, the capability position, the header and quirks passed to
`intel_vsec_add_dev`, and the value it returned.  `dev_dbg`/`dev_info` messages are not
recorded. -/
inductive Event where
  | pci_find_next_ext_capability (start cap ret : Nat)
  | pci_read_config_dword (addr val : Nat)
  | pci_read_config_byte (addr val : Nat)
  | call_intel_vsec_add_dev (pos : Nat) (header : intel_vsec_header) (quirks : Nat)
  | ret_intel_vsec_add_dev (ret : Int)
  | kzalloc (ok : Bool)
  | kcalloc (n : Nat) (ok : Bool)
  | kfree_intel_vsec_dev
  | kfree_resource
  | ida_alloc (ret : Int)
  | ida_free (id : Int)
  | auxiliary_device_init (dev : intel_vsec_device) (ret : Int)
  | auxiliary_device_add (dev : intel_vsec_device) (ret : Int)
  | auxiliary_device_uninit (dev : intel_vsec_device)
  | devm_add_action_or_reset (dev : intel_vsec_device) (ret : Int)
  deriving DecidableEq, Repr

/-- The environment: the value the next external call returns, given the trace so far.
For an allocation, a non-zero value is a non-`NULL` pointer. -/
abbrev Env := List Event → Int

def VSEC_ID_TELEMETRY : Nat := 2
def VSEC_ID_WATCHER : Nat := 3
def VSEC_ID_CRASHLOG : Nat := 4

def intel_vsec_allow_list : List Nat :=
  [VSEC_ID_TELEMETRY, VSEC_ID_WATCHER, VSEC_ID_CRASHLOG]

def intel_vsec_name (id : Nat) : Option String :=
  if id = VSEC_ID_TELEMETRY then some "telemetry"
  else if id = VSEC_ID_WATCHER then some "watcher"
  else if id = VSEC_ID_CRASHLOG then some "crashlog"
  else none

/-- The loop of `intel_vsec_allowed` over the entries from index `i` on. -/
def intel_vsec_allowed_from (id : Nat) : List Nat → Bool
  | [] => false
  | x :: rest => if x = id then true else intel_vsec_allowed_from id rest

def intel_vsec_allowed (id : Nat) : Bool :=
  intel_vsec_allowed_from id intel_vsec_allow_list

def intel_vsec_disabled (id : Nat) (quirks : Nat) : Bool :=
  if id = VSEC_ID_WATCHER then decide (quirks &&& VSEC_QUIRK_NO_WATCHER ≠ 0)
  else if id = VSEC_ID_CRASHLOG then decide (quirks &&& VSEC_QUIRK_NO_CRASHLOG ≠ 0)
  else false

/-! ## `drivers/platform/x86/intel/vsec.c`: adding one device -/

/-- The function `intel_vsec_add_aux(pdev, intel_vsec_dev, name)`.  Returns the return value
and the trace afterwards. -/
def intel_vsec_add_aux (env : Env) (intel_vsec_dev : intel_vsec_device)
    (name : Option String) (t : List Event) : Int × List Event :=
  let ret := env t
  let t := t ++ [Event.ida_alloc ret]
  if ret < 0 then
    (ret, t ++ [Event.kfree_intel_vsec_dev])
  else
    let intel_vsec_dev := { intel_vsec_dev with auxdev_id := ret, auxdev_name := name }
    let ret := env t
    let t := t ++ [Event.auxiliary_device_init intel_vsec_dev ret]
    if ret < 0 then
      (ret, t ++ [Event.ida_free intel_vsec_dev.auxdev_id, Event.kfree_resource,
                  Event.kfree_intel_vsec_dev])
    else
      let ret := env t
      let t := t ++ [Event.auxiliary_device_add intel_vsec_dev ret]
      if ret < 0 then
        (ret, t ++ [Event.auxiliary_device_uninit intel_vsec_dev])
      else
        let ret := env t
        (ret, t ++ [Event.devm_add_action_or_reset intel_vsec_dev ret])

/-- The resource-filling `for` loop of `intel_vsec_add_dev`, with `i` the loop counter and
`k = header->num_entries - i` the number of iterations left; the list holds
`tmp[0], tmp[1], ...` from the current `tmp` on.  `sizeof(u32)` is 4; sums are taken in
`resource_size_t`/`size_t`, both 64-bit. -/
def intel_vsec_fill_resources (pdev : pci_dev) (header : intel_vsec_header) :
    Nat → Nat → List resource
  | 0, _ => []
  | k + 1, i =>
    let start := ulong (ulong (ulong (pdev.resource_start header.tbir) + header.offset) +
      ulong (i * ulong (header.entry_size * 4)))
    let end_ := wsub (ulong (start + ulong (header.entry_size * 4))) 1
    { start := start, end_ := end_, flags := IORESOURCE_MEM } ::
      intel_vsec_fill_resources pdev header k (i + 1)

/-- Outcome of `intel_vsec_add_dev`: the return value, `*header` afterwards, the
`intel_vsec_device` as filled in and handed to `intel_vsec_add_aux` (`none` when the function
returned before building it), and the trace afterwards. -/
structure add_dev_result where
  ret : Int
  header : intel_vsec_header
  dev : Option intel_vsec_device
  trace : List Event
  deriving DecidableEq, Repr

/-- The function `intel_vsec_add_dev(pdev, header, quirks)`. -/
def intel_vsec_add_dev (env : Env) (pdev : pci_dev) (header : intel_vsec_header)
    (quirks : Nat) (t : List Event) : add_dev_result :=
  if !intel_vsec_allowed header.id || intel_vsec_disabled header.id quirks then
    { ret := -EINVAL, header := header, dev := none, trace := t }
  else if header.num_entries = 0 then
    { ret := -EINVAL, header := header, dev := none, trace := t }
  else if header.entry_size = 0 then
    { ret := -EINVAL, header := header, dev := none, trace := t }
  else
    let intel_vsec_dev_ok := decide (env t ≠ 0)
    let t := t ++ [Event.kzalloc intel_vsec_dev_ok]
    if !intel_vsec_dev_ok then
      { ret := -ENOMEM, header := header, dev := none, trace := t }
    else
      let res_ok := decide (env t ≠ 0)
      let t := t ++ [Event.kcalloc header.num_entries res_ok]
      if !res_ok then
        { ret := -ENOMEM, header := header, dev := none,
          trace := t ++ [Event.kfree_intel_vsec_dev] }
      else
        let header :=
          if quirks &&& VSEC_QUIRK_TABLE_SHIFT ≠ 0 then
            { header with offset := header.offset >>> TABLE_OFFSET_SHIFT }
          else header
        let res := intel_vsec_fill_resources pdev header header.num_entries 0
        let intel_vsec_dev : intel_vsec_device :=
          { auxdev_id := 0, auxdev_name := none, resource := res,
            num_resources := header.num_entries, quirks := quirks }
        let r := intel_vsec_add_aux env intel_vsec_dev (intel_vsec_name header.id) t
        { ret := r.1, header := header, dev := some intel_vsec_dev, trace := r.2 }

/-! ## `drivers/platform/x86/intel/vsec.c`: walking the capability list -/

/-- Modelled from the spec: `pci_find_next_ext_capability(pdev, start, cap)` of
`drivers/pci/pci.c`, which is not among the sources.  Over the device's (finite)
extended-capability list it returns the position of the first capability with id `cap`
after the one at position `start` (from the head of the list when `start` is 0), and 0 when
there is none. -/
def pci_find_next_ext_capability (pdev : pci_dev) (start cap : Nat) : Nat :=
  let rest :=
    if start = 0 then pdev.ext_caps
    else (pdev.ext_caps.dropWhile (fun c => decide (c.pos ≠ start))).tail
  match rest.find? (fun c => decide (c.id = cap)) with
  | some c => c.pos
  | none => 0

/-- The `do { ... } while (true)` loop of `intel_vsec_walk_dvsec`, entered with the current
values of `pos` and `have_devices`; each `continue` and the end of the body re-enter the
loop, `break` leaves it.  `fuel` bounds the number of iterations; `none` means the bound was
hit. -/
def intel_vsec_walk_dvsec_loop (env : Env) (pdev : pci_dev) (quirks : Nat) :
    Nat → Nat → Bool → List Event → Option (Bool × List Event)
  | 0, _, _, _ => none
  | fuel + 1, pos, have_devices, t =>
    let pos' := pci_find_next_ext_capability pdev pos PCI_EXT_CAP_ID_DVSEC
    let t := t ++ [Event.pci_find_next_ext_capability pos PCI_EXT_CAP_ID_DVSEC pos']
    let pos := pos'
    if pos = 0 then some (have_devices, t)
    else
      let hdr := u32 (pdev.config_dword (pos + PCI_DVSEC_HEADER1))
      let t := t ++ [Event.pci_read_config_dword (pos + PCI_DVSEC_HEADER1) hdr]
      let vid := u16 (PCI_DVSEC_HEADER1_VID hdr)
      if vid ≠ PCI_VENDOR_ID_INTEL then
        intel_vsec_walk_dvsec_loop env pdev quirks fuel pos have_devices t
      else
        let rev := u8 (PCI_DVSEC_HEADER1_REV hdr)
        if rev ≠ 1 then
          intel_vsec_walk_dvsec_loop env pdev quirks fuel pos have_devices t
        else
          let length := u16 (PCI_DVSEC_HEADER1_LEN hdr)
          let num_entries := u8 (pdev.config_byte (pos + INTEL_DVSEC_ENTRIES))
          let t := t ++ [Event.pci_read_config_byte (pos + INTEL_DVSEC_ENTRIES) num_entries]
          let entry_size := u8 (pdev.config_byte (pos + INTEL_DVSEC_SIZE))
          let t := t ++ [Event.pci_read_config_byte (pos + INTEL_DVSEC_SIZE) entry_size]
          let table := u32 (pdev.config_dword (pos + INTEL_DVSEC_TABLE))
          let t := t ++ [Event.pci_read_config_dword (pos + INTEL_DVSEC_TABLE) table]
          let tbir := u8 (INTEL_DVSEC_TABLE_BAR table)
          let offset := u32 (INTEL_DVSEC_TABLE_OFFSET table)
          let hdr := u32 (pdev.config_dword (pos + PCI_DVSEC_HEADER2))
          let t := t ++ [Event.pci_read_config_dword (pos + PCI_DVSEC_HEADER2) hdr]
          let id := u16 (PCI_DVSEC_HEADER2_ID hdr)
          let header : intel_vsec_header :=
            { rev := rev, length := length, id := id, num_entries := num_entries,
              entry_size := entry_size, tbir := tbir, offset := offset }
          let t := t ++ [Event.call_intel_vsec_add_dev pos header quirks]
          let r := intel_vsec_add_dev env pdev header quirks t
          let t := r.trace ++ [Event.ret_intel_vsec_add_dev r.ret]
          if r.ret ≠ 0 then
            intel_vsec_walk_dvsec_loop env pdev quirks fuel pos have_devices t
          else
            intel_vsec_walk_dvsec_loop env pdev quirks fuel pos true t

/-- The function `intel_vsec_walk_dvsec(pdev, quirks)`, started on trace `t`. -/
def intel_vsec_walk_dvsec (env : Env) (pdev : pci_dev) (quirks : Nat) (fuel : Nat)
    (t : List Event) : Option (Bool × List Event) :=
  intel_vsec_walk_dvsec_loop env pdev quirks fuel 0 false t

/-- The `do { ... } while (true)` loop of `intel_vsec_walk_vsec`, see
`intel_vsec_walk_dvsec_loop`. -/
def intel_vsec_walk_vsec_loop (env : Env) (pdev : pci_dev) (quirks : Nat) :
    Nat → Nat → Bool → List Event → Option (Bool × List Event)
  | 0, _, _, _ => none
  | fuel + 1, pos, have_devices, t =>
    let pos' := pci_find_next_ext_capability pdev pos PCI_EXT_CAP_ID_VNDR
    let t := t ++ [Event.pci_find_next_ext_capability pos PCI_EXT_CAP_ID_VNDR pos']
    let pos := pos'
    if pos = 0 then some (have_devices, t)
    else
      let hdr := u32 (pdev.config_dword (pos + PCI_VNDR_HEADER))
      let t := t ++ [Event.pci_read_config_dword (pos + PCI_VNDR_HEADER) hdr]
      let rev := u8 (PCI_VNDR_HEADER_REV hdr)
      if rev ≠ 1 then
        intel_vsec_walk_vsec_loop env pdev quirks fuel pos have_devices t
      else
        let id := u16 (PCI_VNDR_HEADER_ID hdr)
        let length := u16 (PCI_VNDR_HEADER_LEN hdr)
        let num_entries := u8 (pdev.config_byte (pos + INTEL_DVSEC_ENTRIES))
        let t := t ++ [Event.pci_read_config_byte (pos + INTEL_DVSEC_ENTRIES) num_entries]
        let entry_size := u8 (pdev.config_byte (pos + INTEL_DVSEC_SIZE))
        let t := t ++ [Event.pci_read_config_byte (pos + INTEL_DVSEC_SIZE) entry_size]
        let table := u32 (pdev.config_dword (pos + INTEL_DVSEC_TABLE))
        let t := t ++ [Event.pci_read_config_dword (pos + INTEL_DVSEC_TABLE) table]
        let tbir := u8 (INTEL_DVSEC_TABLE_BAR table)
        let offset := u32 (INTEL_DVSEC_TABLE_OFFSET table)
        let header : intel_vsec_header :=
          { rev := rev, length := length, id := id, num_entries := num_entries,
            entry_size := entry_size, tbir := tbir, offset := offset }
        let t := t ++ [Event.call_intel_vsec_add_dev pos header quirks]
        let r := intel_vsec_add_dev env pdev header quirks t
        let t := r.trace ++ [Event.ret_intel_vsec_add_dev r.ret]
        if r.ret ≠ 0 then
          intel_vsec_walk_vsec_loop env pdev quirks fuel pos have_devices t
        else
          intel_vsec_walk_vsec_loop env pdev quirks fuel pos true t

/-- The function `intel_vsec_walk_vsec(pdev, quirks)`, started on trace `t`. -/
def intel_vsec_walk_vsec (env : Env) (pdev : pci_dev) (quirks : Nat) (fuel : Nat)
    (t : List Event) : Option (Bool × List Event) :=
  intel_vsec_walk_vsec_loop env pdev quirks fuel 0 false t

/-! ## Vocabulary of the statements -/

/-- The `i`-th discovery-table resource in closed form, sums taken modulo `2^64`. -/
def table_resource (bar off entry_size i : Nat) : resource :=
  { start := (bar + off + i * (entry_size * 4)) % 2 ^ 64,
    end_ := ((bar + off + i * (entry_size * 4)) % 2 ^ 64 + entry_size * 4 - 1) % 2 ^ 64,
    flags := IORESOURCE_MEM }

/-- The table offset in use: `header.offset`, or `header.offset >> 3` when
`VSEC_QUIRK_TABLE_SHIFT` is set in `quirks`. -/
def table_off (header : intel_vsec_header) (quirks : Nat) : Nat :=
  if quirks &&& VSEC_QUIRK_TABLE_SHIFT ≠ 0 then header.offset >>> 3 else header.offset

/-- A well-formed capability list: no capability sits at position 0 and no two share a
position.  On such a list `pci_find_next_ext_capability` returns each matching capability
after the given position once, and 0 at the end. -/
def caps_wf (pdev : pci_dev) : Prop :=
  (∀ c ∈ pdev.ext_caps, c.pos ≠ 0) ∧ (pdev.ext_caps.map (fun c => c.pos)).Nodup

/-- Positions of the capabilities with id `cap`, in list order. -/
def matching (pdev : pci_dev) (cap : Nat) : List Nat :=
  (pdev.ext_caps.filter (fun c => decide (c.id = cap))).map (fun c => c.pos)

/-- Result of a `pci_find_next_ext_capability` call. -/
def Event.found : Event → Option Nat
  | .pci_find_next_ext_capability _ _ r => some r
  | _ => none

/-- Address of a configuration-space read. -/
def Event.config_read : Event → Option Nat
  | .pci_read_config_dword a _ => some a
  | .pci_read_config_byte a _ => some a
  | _ => none

/-- Capability position, header and quirks of a call of `intel_vsec_add_dev`. -/
def Event.add_dev_call : Event → Option (Nat × intel_vsec_header × Nat)
  | .call_intel_vsec_add_dev p h q => some (p, h, q)
  | _ => none

/-- Vendor id in DVSEC header 1 of the capability at `pos`. -/
def dvsec_vid (pdev : pci_dev) (pos : Nat) : Nat :=
  u16 (PCI_DVSEC_HEADER1_VID (u32 (pdev.config_dword (pos + PCI_DVSEC_HEADER1))))

/-- Revision in DVSEC header 1 of the capability at `pos`. -/
def dvsec_rev (pdev : pci_dev) (pos : Nat) : Nat :=
  u8 (PCI_DVSEC_HEADER1_REV (u32 (pdev.config_dword (pos + PCI_DVSEC_HEADER1))))

/-- Revision in the VSEC header of the capability at `pos`. -/
def vsec_rev (pdev : pci_dev) (pos : Nat) : Nat :=
  u8 (PCI_VNDR_HEADER_REV (u32 (pdev.config_dword (pos + PCI_VNDR_HEADER))))

/-- Whether the DVSEC at `pos` is Intel's and of revision 1. -/
def dvsec_supported (pdev : pci_dev) (pos : Nat) : Bool :=
  decide (dvsec_vid pdev pos = PCI_VENDOR_ID_INTEL) && decide (dvsec_rev pdev pos = 1)

/-- Whether the VSEC at `pos` is of revision 1. -/
def vsec_supported (pdev : pci_dev) (pos : Nat) : Bool :=
  decide (vsec_rev pdev pos = 1)

/-- The four table fields both walkers decode from `pos + 0xA`, `pos + 0xB`, `pos + 0xC`:
`(num_entries, entry_size, tbir, offset)`. -/
def table_fields (pdev : pci_dev) (pos : Nat) : Nat × Nat × Nat × Nat :=
  (u8 (pdev.config_byte (pos + INTEL_DVSEC_ENTRIES)),
   u8 (pdev.config_byte (pos + INTEL_DVSEC_SIZE)),
   u8 (INTEL_DVSEC_TABLE_BAR (u32 (pdev.config_dword (pos + INTEL_DVSEC_TABLE)))),
   u32 (INTEL_DVSEC_TABLE_OFFSET (u32 (pdev.config_dword (pos + INTEL_DVSEC_TABLE)))))

/-- The header `intel_vsec_walk_dvsec` assembles for the capability at `pos`. -/
def dvsec_header (pdev : pci_dev) (pos : Nat) : intel_vsec_header :=
  { rev := dvsec_rev pdev pos,
    length := u16 (PCI_DVSEC_HEADER1_LEN (u32 (pdev.config_dword (pos + PCI_DVSEC_HEADER1)))),
    id := u16 (PCI_DVSEC_HEADER2_ID (u32 (pdev.config_dword (pos + PCI_DVSEC_HEADER2)))),
    num_entries := (table_fields pdev pos).1,
    entry_size := (table_fields pdev pos).2.1,
    tbir := (table_fields pdev pos).2.2.1,
    offset := (table_fields pdev pos).2.2.2 }

/-- The header `intel_vsec_walk_vsec` assembles for the capability at `pos`. -/
def vsec_header (pdev : pci_dev) (pos : Nat) : intel_vsec_header :=
  { rev := vsec_rev pdev pos,
    length := u16 (PCI_VNDR_HEADER_LEN (u32 (pdev.config_dword (pos + PCI_VNDR_HEADER)))),
    id := u16 (PCI_VNDR_HEADER_ID (u32 (pdev.config_dword (pos + PCI_VNDR_HEADER)))),
    num_entries := (table_fields pdev pos).1,
    entry_size := (table_fields pdev pos).2.1,
    tbir := (table_fields pdev pos).2.2.1,
    offset := (table_fields pdev pos).2.2.2 }

/-- Configuration-space addresses `intel_vsec_walk_dvsec` reads for the capability at `pos`. -/
def dvsec_reads (pdev : pci_dev) (pos : Nat) : List Nat :=
  if dvsec_vid pdev pos ≠ PCI_VENDOR_ID_INTEL then [pos + PCI_DVSEC_HEADER1]
  else if dvsec_rev pdev pos ≠ 1 then [pos + PCI_DVSEC_HEADER1]
  else [pos + PCI_DVSEC_HEADER1, pos + INTEL_DVSEC_ENTRIES, pos + INTEL_DVSEC_SIZE,
        pos + INTEL_DVSEC_TABLE, pos + PCI_DVSEC_HEADER2]

/-! ## Auxiliary definitions of the proofs -/

/-- Events emitted inside `intel_vsec_add_dev` and `intel_vsec_add_aux`. -/
def Event.add_dev_internal : Event → Bool
  | .pci_find_next_ext_capability _ _ _ => false
  | .pci_read_config_dword _ _ => false
  | .pci_read_config_byte _ _ => false
  | .call_intel_vsec_add_dev _ _ _ => false
  | .ret_intel_vsec_add_dev _ => false
  | _ => true

/-- One pass through the body of the loop of `intel_vsec_walk_dvsec` for the capability found
at `pos`: whether `have_devices = true` was reached, and the trace afterwards. -/
def dvsec_body (env : Env) (pdev : pci_dev) (quirks : Nat) (pos : Nat) (t : List Event) :
    Bool × List Event :=
  let hdr := u32 (pdev.config_dword (pos + PCI_DVSEC_HEADER1))
  let t := t ++ [Event.pci_read_config_dword (pos + PCI_DVSEC_HEADER1) hdr]
  if dvsec_vid pdev pos ≠ PCI_VENDOR_ID_INTEL then (false, t)
  else if dvsec_rev pdev pos ≠ 1 then (false, t)
  else
    let t := t ++
      [Event.pci_read_config_byte (pos + INTEL_DVSEC_ENTRIES)
         (u8 (pdev.config_byte (pos + INTEL_DVSEC_ENTRIES))),
       Event.pci_read_config_byte (pos + INTEL_DVSEC_SIZE)
         (u8 (pdev.config_byte (pos + INTEL_DVSEC_SIZE))),
       Event.pci_read_config_dword (pos + INTEL_DVSEC_TABLE)
         (u32 (pdev.config_dword (pos + INTEL_DVSEC_TABLE))),
       Event.pci_read_config_dword (pos + PCI_DVSEC_HEADER2)
         (u32 (pdev.config_dword (pos + PCI_DVSEC_HEADER2))),
       Event.call_intel_vsec_add_dev pos (dvsec_header pdev pos) quirks]
    let r := intel_vsec_add_dev env pdev (dvsec_header pdev pos) quirks t
    (decide (r.ret = 0), r.trace ++ [Event.ret_intel_vsec_add_dev r.ret])

/-- One pass through the body of the loop of `intel_vsec_walk_vsec`, see `dvsec_body`. -/
def vsec_body (env : Env) (pdev : pci_dev) (quirks : Nat) (pos : Nat) (t : List Event) :
    Bool × List Event :=
  let hdr := u32 (pdev.config_dword (pos + PCI_VNDR_HEADER))
  let t := t ++ [Event.pci_read_config_dword (pos + PCI_VNDR_HEADER) hdr]
  if vsec_rev pdev pos ≠ 1 then (false, t)
  else
    let t := t ++
      [Event.pci_read_config_byte (pos + INTEL_DVSEC_ENTRIES)
         (u8 (pdev.config_byte (pos + INTEL_DVSEC_ENTRIES))),
       Event.pci_read_config_byte (pos + INTEL_DVSEC_SIZE)
         (u8 (pdev.config_byte (pos + INTEL_DVSEC_SIZE))),
       Event.pci_read_config_dword (pos + INTEL_DVSEC_TABLE)
         (u32 (pdev.config_dword (pos + INTEL_DVSEC_TABLE))),
       Event.call_intel_vsec_add_dev pos (vsec_header pdev pos) quirks]
    let r := intel_vsec_add_dev env pdev (vsec_header pdev pos) quirks t
    (decide (r.ret = 0), r.trace ++ [Event.ret_intel_vsec_add_dev r.ret])

/-- The common shape of the two walker loops: look up the next capability with id `cap`,
stop at 0, otherwise run `body` on it and go on from there. -/
def scan (pdev : pci_dev) (cap : Nat) (body : Nat → List Event → Bool × List Event) :
    Nat → Nat → Bool → List Event → Option (Bool × List Event)
  | 0, _, _, _ => none
  | fuel + 1, pos, have_devices, t =>
    let p := pci_find_next_ext_capability pdev pos cap
    let t := t ++ [Event.pci_find_next_ext_capability pos cap p]
    if p = 0 then some (have_devices, t)
    else scan pdev cap body fuel p (have_devices || (body p t).1) (body p t).2

/-- The run of `scan` over a given list of positions still to be found. -/
def scan_spec (cap : Nat) (body : Nat → List Event → Bool × List Event) :
    List Nat → Nat → Bool → List Event → Bool × List Event
  | [], prev, have_devices, t =>
    (have_devices, t ++ [Event.pci_find_next_ext_capability prev cap 0])
  | p :: ps, prev, have_devices, t =>
    let t := t ++ [Event.pci_find_next_ext_capability prev cap p]
    scan_spec cap body ps p (have_devices || (body p t).1) (body p t).2

/-- The list `pci_find_next_ext_capability` searches: the capabilities after the one at
position `start`, or all of them when `start` is 0. -/
def caps_after (pdev : pci_dev) (start : Nat) : List ext_cap :=
  if start = 0 then pdev.ext_caps
  else (pdev.ext_caps.dropWhile (fun c => decide (c.pos ≠ start))).tail

/-- What the proofs need to know about a loop body: it only appends events, among them no
capability lookup, its configuration reads and its calls of `intel_vsec_add_dev` are the
given ones, and it reports `true` exactly when a call of `intel_vsec_add_dev` returned 0. -/
def body_spec (body : Nat → List Event → Bool × List Event) (reads : Nat → List Nat)
    (calls : Nat → List (Nat × intel_vsec_header × Nat)) : Prop :=
  ∀ (p : Nat) (t : List Event), ∃ evs, (body p t).2 = t ++ evs ∧
    evs.filterMap Event.found = [] ∧
    evs.filterMap Event.config_read = reads p ∧
    evs.filterMap Event.add_dev_call = calls p ∧
    ((body p t).1 = true ↔ Event.ret_intel_vsec_add_dev 0 ∈ evs)

/-- Calls of `intel_vsec_add_dev` that `intel_vsec_walk_dvsec` makes for the capability at
`pos`: one, with the decoded header, when the capability is supported. -/
def dvsec_calls (pdev : pci_dev) (quirks : Nat) (pos : Nat) :
    List (Nat × intel_vsec_header × Nat) :=
  if dvsec_supported pdev pos then [(pos, dvsec_header pdev pos, quirks)] else []

/-- Calls of `intel_vsec_add_dev` that `intel_vsec_walk_vsec` makes for the capability at
`pos`, see `dvsec_calls`. -/
def vsec_calls (pdev : pci_dev) (quirks : Nat) (pos : Nat) :
    List (Nat × intel_vsec_header × Nat) :=
  if vsec_supported pdev pos then [(pos, vsec_header pdev pos, quirks)] else []

/-- Configuration-space addresses `intel_vsec_walk_vsec` reads for the capability at `pos`. -/
def vsec_reads (pdev : pci_dev) (pos : Nat) : List Nat :=
  if vsec_rev pdev pos ≠ 1 then [pos + PCI_VNDR_HEADER]
  else [pos + PCI_VNDR_HEADER, pos + INTEL_DVSEC_ENTRIES, pos + INTEL_DVSEC_SIZE,
        pos + INTEL_DVSEC_TABLE]

/-! ## Concrete inputs -/

/-- An environment in which both allocations succeed and every other call returns 0. -/
def demo_env : Env := fun t =>
  match t.getLast? with
  | none => 1
  | some (Event.call_intel_vsec_add_dev _ _ _) => 1
  | some (Event.kzalloc _) => 1
  | _ => 0

/-- A device with an Intel revision-1 telemetry DVSEC at 0x100, a revision-1 watcher VSEC at
0x200 with the same table registers, a DVSEC of another vendor at 0x300 and an Intel DVSEC of
revision 2 at 0x400. -/
def demo_dev : pci_dev :=
  { resource_start := fun i => 0x10000 * (i + 1),
    ext_caps := [⟨0x100, 0x23⟩, ⟨0x200, 0x0B⟩, ⟨0x300, 0x23⟩, ⟨0x400, 0x23⟩],
    config_dword := fun a =>
      if a = 0x104 then 0x01018086 else if a = 0x108 then 2 else if a = 0x10C then 0x2001
      else if a = 0x204 then 0x01010003 else if a = 0x20C then 0x2001
      else if a = 0x304 then 0x01011234
      else if a = 0x404 then 0x01028086 else 0,
    config_byte := fun a =>
      if a = 0x10A then 2 else if a = 0x10B then 3
      else if a = 0x20A then 2 else if a = 0x20B then 3 else 0 }

/-- A telemetry header with two tables of three dwords at offset 0x2000 of BAR 1. -/
def demo_header : intel_vsec_header :=
  { rev := 1, length := 0x10, id := 2, num_entries := 2, entry_size := 3, tbir := 1,
    offset := 0x2000 }

/-- The device `intel_vsec_add_dev` builds from `demo_header` on `demo_dev` under
`VSEC_QUIRK_TABLE_SHIFT`. -/
def demo_device : intel_vsec_device :=
  { auxdev_id := 0, auxdev_name := none,
    resource := [{ start := 0x20400, end_ := 0x2040B, flags := 0x200 },
                 { start := 0x2040C, end_ := 0x20417, flags := 0x200 }],
    num_resources := 2, quirks := 4 }

/-- The events of `intel_vsec_walk_dvsec` on `demo_dev` in `demo_env` without quirks. -/
def demo_dvsec_events : List Event :=
  let h : intel_vsec_header :=
    { rev := 1, length := 16, id := 2, num_entries := 2, entry_size := 3, tbir := 1,
      offset := 0x2000 }
  let d : intel_vsec_device :=
    { auxdev_id := 0, auxdev_name := some "telemetry",
      resource := [{ start := 0x22000, end_ := 0x2200B, flags := 0x200 },
                   { start := 0x2200C, end_ := 0x22017, flags := 0x200 }],
      num_resources := 2, quirks := 0 }
  [Event.pci_find_next_ext_capability 0 0x23 0x100,
   Event.pci_read_config_dword 0x104 0x01018086,
   Event.pci_read_config_byte 0x10A 2,
   Event.pci_read_config_byte 0x10B 3,
   Event.pci_read_config_dword 0x10C 0x2001,
   Event.pci_read_config_dword 0x108 2,
   Event.call_intel_vsec_add_dev 0x100 h 0,
   Event.kzalloc true,
   Event.kcalloc 2 true,
   Event.ida_alloc 0,
   Event.auxiliary_device_init d 0,
   Event.auxiliary_device_add d 0,
   Event.devm_add_action_or_reset d 0,
   Event.ret_intel_vsec_add_dev 0,
   Event.pci_find_next_ext_capability 0x100 0x23 0x300,
   Event.pci_read_config_dword 0x304 0x01011234,
   Event.pci_find_next_ext_capability 0x300 0x23 0x400,
   Event.pci_read_config_dword 0x404 0x01028086,
   Event.pci_find_next_ext_capability 0x400 0x23 0]

/-- The events of `intel_vsec_walk_vsec` on `demo_dev` in `demo_env` without quirks. -/
def demo_vsec_events : List Event :=
  let h : intel_vsec_header :=
    { rev := 1, length := 16, id := 3, num_entries := 2, entry_size := 3, tbir := 1,
      offset := 0x2000 }
  let d : intel_vsec_device :=
    { auxdev_id := 0, auxdev_name := some "watcher",
      resource := [{ start := 0x22000, end_ := 0x2200B, flags := 0x200 },
                   { start := 0x2200C, end_ := 0x22017, flags := 0x200 }],
      num_resources := 2, quirks := 0 }
  [Event.pci_find_next_ext_capability 0 0x0B 0x200,
   Event.pci_read_config_dword 0x204 0x01010003,
   Event.pci_read_config_byte 0x20A 2,
   Event.pci_read_config_byte 0x20B 3,
   Event.pci_read_config_dword 0x20C 0x2001,
   Event.call_intel_vsec_add_dev 0x200 h 0,
   Event.kzalloc true,
   Event.kcalloc 2 true,
   Event.ida_alloc 0,
   Event.auxiliary_device_init d 0,
   Event.auxiliary_device_add d 0,
   Event.devm_add_action_or_reset d 0,
   Event.ret_intel_vsec_add_dev 0,
   Event.pci_find_next_ext_capability 0x200 0x0B 0]

/-! ## The `container_of` copies of `srcu-cbmc/src/misc.h` and `rtla/src/utils.h` -/

/-- The five `static volatile unsigned long` globals of `misc.h` and `utils.h`: those of
`container_of.h` and `__container_of_ptr_diff`. -/
structure ContainerOfGlobalsDiff where
  __container_of_type_in : Nat
  __container_of_type_out : Nat
  __container_of_ptr_in : Nat
  __container_of_ptr_out : Nat
  __container_of_ptr_diff : Nat
  deriving DecidableEq, Repr

namespace SrcuCbmc

/-- Body of `__uncontained_container_of(ptr, type, member)` in `misc.h`:
`(char *)__mptr - offsetof(type, member)`. -/
def __uncontained_container_of (ptr off : Nat) : Nat :=
  let __mptr := ptr
  wsub __mptr off

/-- The macro `container_of(ptr, type, member)` of `misc.h` applied to the argument
expression `ptr`; the other arguments as for the one of `container_of.h`. -/
def container_of_expr (kasan : Bool) (a_in a_out : Nat) (g : ContainerOfGlobalsDiff)
    (ptr : arg_expr) (off : Nat) : Nat × ContainerOfGlobalsDiff :=
  if kasan then
    let __tmp_ptr_out := __uncontained_container_of ptr.value off
    let g := { g with __container_of_ptr_in := ptr.cast_ulong }
    let g := { g with __container_of_type_in := ulong a_in }
    let g := { g with __container_of_type_out := ulong a_out }
    let g := { g with __container_of_ptr_out := ulong __tmp_ptr_out }
    let g := { g with __container_of_ptr_diff := ulong off }
    (g.__container_of_ptr_out, g)
  else
    (__uncontained_container_of ptr.value off, g)

/-- The macro `container_of(ptr, type, member)` of `misc.h` for an argument that is a primary
expression of value `ptr`. -/
def container_of (kasan : Bool) (a_in a_out : Nat) (g : ContainerOfGlobalsDiff)
    (ptr off : Nat) : Nat × ContainerOfGlobalsDiff :=
  container_of_expr kasan a_in a_out g (arg_expr.primary ptr) off

end SrcuCbmc

namespace Rtla

/-- Body of `__uncontained_container_of(ptr, type, member)` in `utils.h`:
`(char *)__mptr - offsetof(type, member)`. -/
def __uncontained_container_of (ptr off : Nat) : Nat :=
  let __mptr := ptr
  wsub __mptr off

/-- The macro `container_of(ptr, type, member)` of `utils.h` applied to the argument
expression `ptr`; the other arguments as for the one of `container_of.h`. -/
def container_of_expr (kasan : Bool) (a_in a_out : Nat) (g : ContainerOfGlobalsDiff)
    (ptr : arg_expr) (off : Nat) : Nat × ContainerOfGlobalsDiff :=
  if kasan then
    let __tmp_ptr_out := __uncontained_container_of ptr.value off
    let g := { g with __container_of_ptr_in := ptr.cast_ulong }
    let g := { g with __container_of_type_in := ulong a_in }
    let g := { g with __container_of_type_out := ulong a_out }
    let g := { g with __container_of_ptr_out := ulong __tmp_ptr_out }
    let g := { g with __container_of_ptr_diff := ulong off }
    (g.__container_of_ptr_out, g)
  else
    (__uncontained_container_of ptr.value off, g)

/-- The macro `container_of(ptr, type, member)` of `utils.h` for an argument that is a primary
expression of value `ptr`. -/
def container_of (kasan : Bool) (a_in a_out : Nat) (g : ContainerOfGlobalsDiff)
    (ptr off : Nat) : Nat × ContainerOfGlobalsDiff :=
  container_of_expr kasan a_in a_out g (arg_expr.primary ptr) off

end Rtla

/-! ## `drivers/gpu/drm/i915/gem/selftests/mock_dmabuf.c` -/

/-- Modelled from the spec: `ERR_PTR(error)` of `include/linux/err.h`, the pointer whose
address is `(long)error`. -/
def ERR_PTR (error : Int) : Nat := int_to_ulong error

/-- Modelled from the spec: `IS_ERR(ptr)` of `include/linux/err.h`, i.e.
`IS_ERR_VALUE((unsigned long)ptr)`. -/
def IS_ERR (ptr : Nat) : Bool := IS_ERR_VALUE ptr

/-- Modelled from the spec: `PAGE_SIZE` (x86: `1UL << 12`). -/
def PAGE_SIZE : Nat := 4096

/-- Modelled from the spec: `O_CLOEXEC` of `fcntl.h`. -/
def O_CLOEXEC : Nat := 0o2000000

/-- Modelled from the spec: `struct mock_dmabuf` of `mock_dmabuf.h`
(`int npages; struct page *pages[];`).  `pages` holds the entries written so far,
`pages[0]`, `pages[1]`, ..., as page addresses. -/
structure mock_dmabuf_t where
  npages : Int
  pages : List Nat
  deriving DecidableEq, Repr

/-- Modelled from the spec: `sizeof(struct mock_dmabuf)`, the flexible array not counted. -/
def sizeof_mock_dmabuf : Nat := 8

/-- Size of a `struct page *`. -/
def sizeof_page_ptr : Nat := 8

/-- The fields of `struct dma_buf_export_info` that `mock_dmabuf` sets (`ops` is always
`&mock_dmabuf_ops`); `priv` is given by the address of the mock and its contents. -/
structure dma_buf_export_info where
  size : Nat
  flags : Nat
  priv : Nat
  priv_mock : mock_dmabuf_t
  deriving DecidableEq, Repr

/-- Calls that leave `mock_dmabuf.c`, with arguments and results, in program order. -/
inductive DmaEvent where
  | kmalloc (size : Nat) (ret : Nat)
  | alloc_page (ret : Nat)
  | put_page (page : Nat)
  | kfree (ptr : Nat)
  | dma_buf_export (exp_info : dma_buf_export_info) (ret : Nat)
  deriving DecidableEq, Repr

/-- The environment of `mock_dmabuf.c`: the pointer the next external call returns, given
the trace so far. -/
abbrev DmaEnv := List DmaEvent → Nat

/-- The page-allocating `for` loop of `mock_dmabuf`, with `i` the loop counter, `k` the number
of iterations left and `pages` the entries written so far.  Returns whether the loop ran to
its end (`false`: left by `goto err`), the final `i`, the array and the trace. -/
def mock_dmabuf_alloc_pages (env : DmaEnv) :
    Nat → Nat → List Nat → List DmaEvent → Bool × Nat × List Nat × List DmaEvent
  | 0, i, pages, t => (true, i, pages, t)
  | k + 1, i, pages, t =>
    let page := ulong (env t)
    let t := t ++ [DmaEvent.alloc_page page]
    let pages := pages ++ [page]
    if page = 0 then (false, i, pages, t)
    else mock_dmabuf_alloc_pages env k (i + 1) pages t

/-- The loop `while (i--) put_page(mock->pages[i]);` at label `err` of `mock_dmabuf`. -/
def mock_dmabuf_put_pages (pages : List Nat) : Nat → List DmaEvent → List DmaEvent
  | 0, t => t
  | i + 1, t => mock_dmabuf_put_pages pages i (t ++ [DmaEvent.put_page (pages.getD i 0)])

/-- Outcome of `mock_dmabuf`: the returned pointer, the export information handed to a
successful `dma_buf_export` (`none` when an error pointer is returned), and the trace. -/
structure mock_dmabuf_result where
  ret : Nat
  exported : Option dma_buf_export_info
  trace : List DmaEvent
  deriving DecidableEq, Repr

/-- The function `mock_dmabuf(npages)`. -/
def mock_dmabuf (env : DmaEnv) (npages : Int) (t : List DmaEvent) : mock_dmabuf_result :=
  let size := ulong (sizeof_mock_dmabuf + ulong (int_to_ulong npages * sizeof_page_ptr))
  let mock := ulong (env t)
  let t := t ++ [DmaEvent.kmalloc size mock]
  if mock = 0 then
    { ret := ERR_PTR (-ENOMEM), exported := none, trace := t }
  else
    let r := mock_dmabuf_alloc_pages env npages.toNat 0 [] t
    if !r.1 then
      let t := mock_dmabuf_put_pages r.2.2.1 r.2.1 r.2.2.2
      { ret := ERR_PTR (-ENOMEM), exported := none, trace := t ++ [DmaEvent.kfree mock] }
    else
      let exp_info : dma_buf_export_info :=
        { size := ulong (int_to_ulong npages * PAGE_SIZE), flags := O_CLOEXEC, priv := mock,
          priv_mock := { npages := npages, pages := r.2.2.1 } }
      let dmabuf := ulong (env r.2.2.2)
      let t := r.2.2.2 ++ [DmaEvent.dma_buf_export exp_info dmabuf]
      if IS_ERR dmabuf then
        let t := mock_dmabuf_put_pages r.2.2.1 r.2.1 t
        { ret := ERR_PTR (-ENOMEM), exported := none, trace := t ++ [DmaEvent.kfree mock] }
      else
        { ret := dmabuf, exported := some exp_info, trace := t }

/-- The `for` loop of `mock_dmabuf_release`, with `i` the loop counter and `k` the number of
iterations left. -/
def mock_dmabuf_release_pages (pages : List Nat) : Nat → Nat → List DmaEvent → List DmaEvent
  | 0, _, t => t
  | k + 1, i, t =>
    mock_dmabuf_release_pages pages k (i + 1) (t ++ [DmaEvent.put_page (pages.getD i 0)])

/-- The function `mock_dmabuf_release(dma_buf)`, for a `dma_buf` whose `priv` is the mock at
address `priv` with contents `mock` (`to_mock` of `mock_dmabuf.h` returns `priv`). -/
def mock_dmabuf_release (priv : Nat) (mock : mock_dmabuf_t) (t : List DmaEvent) :
    List DmaEvent :=
  let t := mock_dmabuf_release_pages mock.pages mock.npages.toNat 0 t
  t ++ [DmaEvent.kfree priv]

/-- An environment for `mock_dmabuf` in which the `n`-th external call returns
`0x1000 * (n + 1)`, except that call number `fail` returns `bad`. -/
def demo_dma_env (fail bad : Nat) : DmaEnv := fun t =>
  if t.length = fail then bad else 0x1000 * (t.length + 1)

/-! ## `drivers/platform/x86/x86-android-tablets.c`: data -/

/-- Modelled from the spec: `ENODEV` of `errno-base.h`. -/
def ENODEV : Int := 19

/-- Modelled from the spec: `IS_ERR(ptr)` of `include/linux/err.h` on a pointer read as a
signed `long`: the values `-MAX_ERRNO .. -1`. -/
def IS_ERR_long (ptr : Int) : Bool := decide (-(MAX_ERRNO : Int) ≤ ptr ∧ ptr < 0)

/-- Modelled from the spec: `ACPI_LEVEL_SENSITIVE` of `actypes.h`. -/
def ACPI_LEVEL_SENSITIVE : Int := 0

/-- Modelled from the spec: `ACPI_EDGE_SENSITIVE` of `actypes.h`. -/
def ACPI_EDGE_SENSITIVE : Int := 1

/-- Modelled from the spec: `ACPI_ACTIVE_HIGH` of `actypes.h`. -/
def ACPI_ACTIVE_HIGH : Int := 0

/-- Modelled from the spec: `ACPI_ACTIVE_LOW` of `actypes.h`. -/
def ACPI_ACTIVE_LOW : Int := 1

/-- Modelled from the spec: `IRQ_TYPE_NONE` of `irq.h`. -/
def IRQ_TYPE_NONE : Int := 0

/-- Modelled from the spec: `PLATFORM_DEVID_NONE` of `platform_device.h`. -/
def PLATFORM_DEVID_NONE : Int := -1

/-- Modelled from the spec: `GPIO_ACTIVE_HIGH` of `gpio/machine.h`. -/
def GPIO_ACTIVE_HIGH : Nat := 0

/-- Modelled from the spec: the values of `enum irq_domain_bus_token` (`irqdomain.h`) that
the driver names. -/
inductive irq_domain_bus_token where
  | DOMAIN_BUS_ANY
  | DOMAIN_BUS_WAKEUP
  deriving DecidableEq, Repr

inductive x86_acpi_irq_type where
  | X86_ACPI_IRQ_TYPE_NONE
  | X86_ACPI_IRQ_TYPE_APIC
  | X86_ACPI_IRQ_TYPE_GPIOINT
  | X86_ACPI_IRQ_TYPE_PMIC
  deriving DecidableEq, Repr

/-- The `struct x86_acpi_irq_data`; fields left out of an initializer are zero. -/
structure x86_acpi_irq_data where
  chip : Option String := none
  type : x86_acpi_irq_type := x86_acpi_irq_type.X86_ACPI_IRQ_TYPE_NONE
  domain : irq_domain_bus_token := irq_domain_bus_token.DOMAIN_BUS_ANY
  index : Int := 0
  trigger : Int := 0
  polarity : Int := 0
  deriving DecidableEq, Repr

/-- Modelled from the spec: the fields of `struct i2c_board_info` (`i2c.h`) the driver sets;
`swnode` and `platform_data` are given by the name of the object pointed to. -/
structure i2c_board_info where
  type : String
  addr : Nat
  dev_name : Option String := none
  swnode : Option String := none
  platform_data : Option String := none
  irq : Int := 0
  deriving DecidableEq, Repr

structure x86_i2c_client_info where
  board_info : i2c_board_info
  adapter_path : String
  irq_data : x86_acpi_irq_data := {}
  deriving DecidableEq, Repr

structure x86_serdev_info where
  ctrl_hid : String
  ctrl_uid : String
  ctrl_devname : String
  serdev_hid : String
  deriving DecidableEq, Repr

/-- Modelled from the spec: the fields of `struct platform_device_info` the driver sets. -/
structure platform_device_info where
  name : String
  id : Int
  deriving DecidableEq, Repr

/-- Modelled from the spec: one `GPIO_LOOKUP(key, chip_hwnum, con_id, flags)` entry of
`gpio/machine.h`. -/
structure gpiod_lookup where
  key : String
  chip_hwnum : Nat
  con_id : String
  flags : Nat
  deriving DecidableEq, Repr

/-- Modelled from the spec: `struct gpiod_lookup_table` of `gpio/machine.h`; `table` without
its empty terminator. -/
structure gpiod_lookup_table where
  dev_id : String
  table : List gpiod_lookup
  deriving DecidableEq, Repr

/-- The functions that occur as `init` or `exit` hook of a `struct x86_dev_info`. -/
inductive x86_hook where
  | czc_p10t_init
  deriving DecidableEq, Repr

/-- The `struct x86_dev_info`.  A pointer field is `none` for `NULL`; the arrays `modules`
and `gpiod_lookup_tables` are given without their `NULL` terminator. -/
structure x86_dev_info where
  invalid_aei_gpiochip : Option String := none
  modules : Option (List String) := none
  gpiod_lookup_tables : Option (List gpiod_lookup_table) := none
  i2c_client_info : List x86_i2c_client_info := []
  pdev_info : List platform_device_info := []
  serdev_info : List x86_serdev_info := []
  i2c_client_count : Nat := 0
  pdev_count : Nat := 0
  serdev_count : Nat := 0
  init : Option x86_hook := none
  exit : Option x86_hook := none
  deriving DecidableEq, Repr

def bq24190_modules : List String :=
  ["intel_crystal_cove_charger", "bq24190_charger"]

def int3496_pdevs : List platform_device_info :=
  [{ name := "intel-int3496", id := PLATFORM_DEVID_NONE }]

def int3496_gpo2_pin22_gpios : gpiod_lookup_table :=
  { dev_id := "intel-int3496",
    table := [{ key := "INT33FC:02", chip_hwnum := 22, con_id := "id",
                flags := GPIO_ACTIVE_HIGH }] }

def asus_me176c_i2c_clients : List x86_i2c_client_info :=
  [ { board_info := { type := "bq24190", addr := 0x6b, dev_name := some "bq24190",
                      swnode := some "bq24190_node", platform_data := some "bq24190_pdata" },
      adapter_path := "\\_SB_.I2C1",
      irq_data := { type := x86_acpi_irq_type.X86_ACPI_IRQ_TYPE_PMIC,
                    chip := some "\\_SB_.I2C7.PMIC",
                    domain := irq_domain_bus_token.DOMAIN_BUS_WAKEUP, index := 0 } },
    { board_info := { type := "ug3105", addr := 0x70, dev_name := some "ug3105" },
      adapter_path := "\\_SB_.I2C1" },
    { board_info := { type := "ak09911", addr := 0x0c, dev_name := some "ak09911" },
      adapter_path := "\\_SB_.I2C5" },
    { board_info := { type := "kxtj21009", addr := 0x0f, dev_name := some "kxtj21009",
                      swnode := some "asus_me176c_accel_node" },
      adapter_path := "\\_SB_.I2C5" },
    { board_info := { type := "GDIX1001:00", addr := 0x14, dev_name := some "goodix_ts" },
      adapter_path := "\\_SB_.I2C6",
      irq_data := { type := x86_acpi_irq_type.X86_ACPI_IRQ_TYPE_APIC, index := 0x45,
                    trigger := ACPI_EDGE_SENSITIVE, polarity := ACPI_ACTIVE_LOW } } ]

def asus_me176c_serdevs : List x86_serdev_info :=
  [{ ctrl_hid := "80860F0A", ctrl_uid := "2", ctrl_devname := "serial0",
     serdev_hid := "BCM2E3A" }]

def asus_me176c_goodix_gpios : gpiod_lookup_table :=
  { dev_id := "i2c-goodix_ts",
    table := [{ key := "INT33FC:00", chip_hwnum := 60, con_id := "reset",
                flags := GPIO_ACTIVE_HIGH },
              { key := "INT33FC:02", chip_hwnum := 28, con_id := "irq",
                flags := GPIO_ACTIVE_HIGH }] }

def asus_me176c_gpios : List gpiod_lookup_table :=
  [int3496_gpo2_pin22_gpios, asus_me176c_goodix_gpios]

def asus_me176c_info : x86_dev_info :=
  { i2c_client_info := asus_me176c_i2c_clients,
    i2c_client_count := asus_me176c_i2c_clients.length,
    pdev_info := int3496_pdevs,
    pdev_count := int3496_pdevs.length,
    serdev_info := asus_me176c_serdevs,
    serdev_count := asus_me176c_serdevs.length,
    gpiod_lookup_tables := some asus_me176c_gpios,
    modules := some bq24190_modules,
    invalid_aei_gpiochip := some "INT33FC:02" }

def asus_tf103c_i2c_clients : List x86_i2c_client_info :=
  [ { board_info := { type := "bq24190", addr := 0x6b, dev_name := some "bq24190",
                      swnode := some "bq24190_node", platform_data := some "bq24190_pdata" },
      adapter_path := "\\_SB_.I2C1",
      irq_data := { type := x86_acpi_irq_type.X86_ACPI_IRQ_TYPE_PMIC,
                    chip := some "\\_SB_.I2C7.PMIC",
                    domain := irq_domain_bus_token.DOMAIN_BUS_WAKEUP, index := 0 } },
    { board_info := { type := "ug3105", addr := 0x70, dev_name := some "ug3105" },
      adapter_path := "\\_SB_.I2C1" },
    { board_info := { type := "ak09911", addr := 0x0c, dev_name := some "ak09911" },
      adapter_path := "\\_SB_.I2C5" },
    { board_info := { type := "kxtj21009", addr := 0x0f, dev_name := some "kxtj21009",
                      swnode := some "asus_tf103c_accel_node" },
      adapter_path := "\\_SB_.I2C5" },
    { board_info := { type := "atmel_mxt_ts", addr := 0x4a, dev_name := some "atmel_mxt_ts",
                      swnode := some "asus_tf103c_touchscreen_node" },
      adapter_path := "\\_SB_.I2C6",
      irq_data := { type := x86_acpi_irq_type.X86_ACPI_IRQ_TYPE_GPIOINT,
                    chip := some "INT33FC:02", index := 28,
                    trigger := ACPI_EDGE_SENSITIVE, polarity := ACPI_ACTIVE_LOW } } ]

def asus_tf103c_gpios : List gpiod_lookup_table :=
  [int3496_gpo2_pin22_gpios]

def asus_tf103c_info : x86_dev_info :=
  { i2c_client_info := asus_tf103c_i2c_clients,
    i2c_client_count := asus_tf103c_i2c_clients.length,
    pdev_info := int3496_pdevs,
    pdev_count := int3496_pdevs.length,
    gpiod_lookup_tables := some asus_tf103c_gpios,
    modules := some bq24190_modules,
    invalid_aei_gpiochip := some "INT33FC:02" }

def chuwi_hi8_i2c_clients : List x86_i2c_client_info :=
  [ { board_info := { type := "gsl1680", addr := 0x40,
                      swnode := some "chuwi_hi8_gsl1680_node" },
      adapter_path := "\\_SB_.I2C4",
      irq_data := { type := x86_acpi_irq_type.X86_ACPI_IRQ_TYPE_APIC, index := 0x44,
                    trigger := ACPI_EDGE_SENSITIVE, polarity := ACPI_ACTIVE_HIGH } },
    { board_info := { type := "bma250e", addr := 0x18,
                      swnode := some "chuwi_hi8_bma250e_node" },
      adapter_path := "\\_SB_.I2C3",
      irq_data := { type := x86_acpi_irq_type.X86_ACPI_IRQ_TYPE_GPIOINT,
                    chip := some "INT33FC:02", index := 23,
                    trigger := ACPI_LEVEL_SENSITIVE, polarity := ACPI_ACTIVE_HIGH } } ]

def chuwi_hi8_info : x86_dev_info :=
  { i2c_client_info := chuwi_hi8_i2c_clients,
    i2c_client_count := chuwi_hi8_i2c_clients.length }

def CZC_EC_EXTRA_PORT : Nat := 0x68
def CZC_EC_ANDROID_KEYS : Nat := 0x63

def czc_p10t : x86_dev_info :=
  { init := some x86_hook.czc_p10t_init }

def whitelabel_tm800a550l_i2c_clients : List x86_i2c_client_info :=
  [ { board_info := { type := "GDIX1001:00", addr := 0x14, dev_name := some "goodix_ts",
                      swnode := some "whitelabel_tm800a550l_goodix_node" },
      adapter_path := "\\_SB_.I2C2",
      irq_data := { type := x86_acpi_irq_type.X86_ACPI_IRQ_TYPE_APIC, index := 0x44,
                    trigger := ACPI_EDGE_SENSITIVE, polarity := ACPI_ACTIVE_HIGH } },
    { board_info := { type := "kxcj91008", addr := 0x0f, dev_name := some "kxcj91008",
                      swnode := some "whitelabel_tm800a550l_accel_node" },
      adapter_path := "\\_SB_.I2C3" } ]

def whitelabel_tm800a550l_goodix_gpios : gpiod_lookup_table :=
  { dev_id := "i2c-goodix_ts",
    table := [{ key := "INT33FC:01", chip_hwnum := 26, con_id := "reset",
                flags := GPIO_ACTIVE_HIGH },
              { key := "INT33FC:02", chip_hwnum := 3, con_id := "irq",
                flags := GPIO_ACTIVE_HIGH }] }

def whitelabel_tm800a550l_gpios : List gpiod_lookup_table :=
  [whitelabel_tm800a550l_goodix_gpios]

def whitelabel_tm800a550l_info : x86_dev_info :=
  { i2c_client_info := whitelabel_tm800a550l_i2c_clients,
    i2c_client_count := whitelabel_tm800a550l_i2c_clients.length,
    gpiod_lookup_tables := some whitelabel_tm800a550l_gpios }

def xiaomi_mipad2_i2c_clients : List x86_i2c_client_info :=
  [ { board_info := { type := "bq27520", addr := 0x55, dev_name := some "bq27520",
                      swnode := some "bq27520_node" },
      adapter_path := "\\_SB_.PCI0.I2C1" },
    { board_info := { type := "ktd2026", addr := 0x30, dev_name := some "ktd2026" },
      adapter_path := "\\_SB_.PCI0.I2C3" } ]

def xiaomi_mipad2_info : x86_dev_info :=
  { i2c_client_info := xiaomi_mipad2_i2c_clients,
    i2c_client_count := xiaomi_mipad2_i2c_clients.length }

/-- Modelled from the spec: the values of `enum dmi_field` (`mod_devicetable.h`) that the
table uses. -/
inductive dmi_field where
  | DMI_BIOS_VERSION
  | DMI_SYS_VENDOR
  | DMI_PRODUCT_NAME
  | DMI_BOARD_VENDOR
  | DMI_BOARD_NAME
  deriving DecidableEq, Repr

/-- Modelled from the spec: `struct dmi_strmatch` of `mod_devicetable.h`, as built by
`DMI_MATCH` (`exact_match = false`) and `DMI_EXACT_MATCH` (`exact_match = true`). -/
structure dmi_strmatch where
  slot : dmi_field
  substr : String
  exact_match : Bool
  deriving DecidableEq, Repr

def DMI_MATCH (a : dmi_field) (b : String) : dmi_strmatch :=
  { slot := a, substr := b, exact_match := false }

def DMI_EXACT_MATCH (a : dmi_field) (b : String) : dmi_strmatch :=
  { slot := a, substr := b, exact_match := true }

/-- Modelled from the spec: `struct dmi_system_id` of `mod_devicetable.h`, with the match
entries in use and the `driver_data` pointed to; `ident` plays no part in matching. -/
structure dmi_system_id where
  matches_ : List dmi_strmatch
  driver_data : x86_dev_info
  deriving DecidableEq, Repr

/-- The table `x86_android_tablet_ids`, without its empty terminator. -/
def x86_android_tablet_ids : List dmi_system_id :=
  [ { matches_ := [DMI_EXACT_MATCH dmi_field.DMI_SYS_VENDOR "ASUSTeK COMPUTER INC.",
                   DMI_EXACT_MATCH dmi_field.DMI_PRODUCT_NAME "ME176C"],
      driver_data := asus_me176c_info },
    { matches_ := [DMI_MATCH dmi_field.DMI_SYS_VENDOR "ASUSTeK COMPUTER INC.",
                   DMI_MATCH dmi_field.DMI_PRODUCT_NAME "TF103C"],
      driver_data := asus_tf103c_info },
    { matches_ := [DMI_MATCH dmi_field.DMI_BOARD_VENDOR "Hampoo",
                   DMI_MATCH dmi_field.DMI_BOARD_NAME "BYT-PA03C",
                   DMI_MATCH dmi_field.DMI_SYS_VENDOR "ilife",
                   DMI_MATCH dmi_field.DMI_PRODUCT_NAME "S806"],
      driver_data := chuwi_hi8_info },
    { matches_ := [DMI_MATCH dmi_field.DMI_SYS_VENDOR "CZC",
                   DMI_MATCH dmi_field.DMI_PRODUCT_NAME "ODEON*TPC-10"],
      driver_data := czc_p10t },
    { matches_ := [DMI_MATCH dmi_field.DMI_SYS_VENDOR "ViewSonic",
                   DMI_MATCH dmi_field.DMI_PRODUCT_NAME "VPAD10"],
      driver_data := czc_p10t },
    { matches_ := [DMI_MATCH dmi_field.DMI_BOARD_VENDOR "AMI Corporation",
                   DMI_MATCH dmi_field.DMI_BOARD_NAME "Aptio CRB",
                   DMI_MATCH dmi_field.DMI_BIOS_VERSION "ZY-8-BI-PX4S70VTR400-X423B-005-D"],
      driver_data := whitelabel_tm800a550l_info },
    { matches_ := [DMI_MATCH dmi_field.DMI_SYS_VENDOR "Xiaomi Inc",
                   DMI_MATCH dmi_field.DMI_PRODUCT_NAME "Mipad2"],
      driver_data := xiaomi_mipad2_info } ]

/-! ## `drivers/platform/x86/x86-android-tablets.c`: code -/

/-- Whether `needle` is an initial segment of `hay`. -/
def starts_with : List Char → List Char → Bool
  | _, [] => true
  | [], _ :: _ => false
  | h :: hs, n :: ns => decide (h = n) && starts_with hs ns

/-- Modelled from the spec: `strstr(hay, needle) != NULL`, on character lists. -/
def strstr_chars : List Char → List Char → Bool
  | [], needle => starts_with [] needle
  | h :: hs, needle => starts_with (h :: hs) needle || strstr_chars hs needle

/-- Modelled from the spec: `dmi_matches(dmi)` of `drivers/firmware/dmi_scan.c`, which is not
among the sources, for a running system whose DMI strings are `dmi_ident`: every match entry
must hold, by equality for an exact match and by substring otherwise; a field the system
does not have matches nothing. -/
def dmi_matches (dmi_ident : dmi_field → Option String) (dmi : dmi_system_id) : Bool :=
  dmi.matches_.all fun m =>
    match dmi_ident m.slot with
    | none => false
    | some s => if m.exact_match then decide (s = m.substr)
                else strstr_chars s.toList m.substr.toList

/-- Modelled from the spec: `dmi_first_match(list)` of `drivers/firmware/dmi_scan.c`: the
first entry of the table that matches the running system, `none` for `NULL`. -/
def dmi_first_match (dmi_ident : dmi_field → Option String) (list : List dmi_system_id) :
    Option dmi_system_id :=
  list.find? (dmi_matches dmi_ident)

/-- Calls that leave `x86-android-tablets.c`, with arguments and results, in program order.
Pointers are given as signed 64-bit values: 0 is `NULL`, `-4095 .. -1` are error pointers.
`pr_err`/`dev_err` messages are not recorded. -/
inductive TabletEvent where
  | gpiochip_find (label : Option String) (ret : Int)
  | acpi_gpiochip_free_interrupts (chip : Int)
  | request_module (name : String)
  | gpiod_add_lookup_table (table : gpiod_lookup_table)
  | gpiod_remove_lookup_table (table : gpiod_lookup_table)
  | outb (value port : Nat)
  | kcalloc (n : Nat) (ret : Int)
  | kfree (ptr : Int)
  | acpi_register_gsi (index trigger polarity : Int) (ret : Int)
  | gpiochip_get_desc (chip index : Int) (ret : Int)
  | gpiod_to_irq (desc : Int) (ret : Int)
  | acpi_dev_get_irq_type (trigger polarity : Int) (ret : Int)
  | irq_get_trigger_type (irq : Int) (ret : Int)
  | irq_set_irq_type (irq type : Int)
  | acpi_get_handle (path : Option String) (status handle : Int)
  | acpi_bus_get_device (handle adev : Int)
  | irq_find_matching_fwspec (adev : Int) (bus_token : irq_domain_bus_token) (ret : Int)
  | irq_create_mapping (domain hwirq : Int) (ret : Int)
  | i2c_acpi_find_adapter_by_handle (handle : Int) (ret : Int)
  | i2c_new_client_device (adap : Int) (info : i2c_board_info) (ret : Int)
  | put_device (dev : Int)
  | dev_err_probe (dev : Int) (err : Int)
  | i2c_unregister_device (client : Int)
  | platform_device_register_full (pdevinfo : platform_device_info) (ret : Int)
  | platform_device_unregister (pdev : Int)
  | acpi_dev_get_first_match_dev (hid : String) (uid : Option String) (ret : Int)
  | acpi_get_first_physical_node (adev : Int) (ret : Int)
  | device_find_child_by_name (parent : Int) (name : String) (ret : Int)
  | serdev_device_alloc (ctrl : Int) (ret : Int)
  | ACPI_COMPANION_SET (dev adev : Int)
  | acpi_device_set_enumerated (adev : Int)
  | serdev_device_add (serdev : Int) (ret : Int)
  | serdev_device_put (serdev : Int)
  | serdev_device_remove (serdev : Int)
  | acpi_dev_put (adev : Int)
  deriving DecidableEq, Repr

/-- The environment of the tablet driver: `ret` is the value the next external call returns
and `out` the value it stores through its output parameter (`acpi_get_handle`,
`acpi_bus_get_device`), given the trace so far. -/
structure TabletEnv where
  ret : List TabletEvent → Int
  out : List TabletEvent → Int

/-- The file-scope variables of `x86-android-tablets.c`.  Each of the three arrays is given by
its address (0 for `NULL`) and its elements. -/
structure tablet_globals where
  i2c_client_count : Nat
  pdev_count : Nat
  serdev_count : Nat
  i2c_clients : Int
  i2c_clients_elems : List Int
  pdevs : Int
  pdevs_elems : List Int
  serdevs : Int
  serdevs_elems : List Int
  gpiod_lookup_tables : Option (List gpiod_lookup_table)
  exit_handler : Option x86_hook
  deriving DecidableEq, Repr

/-- The variables as they are when the module is loaded: all zero. -/
def tablet_globals_zero : tablet_globals :=
  { i2c_client_count := 0, pdev_count := 0, serdev_count := 0,
    i2c_clients := 0, i2c_clients_elems := [],
    pdevs := 0, pdevs_elems := [],
    serdevs := 0, serdevs_elems := [],
    gpiod_lookup_tables := none, exit_handler := none }

/-- The function `x86_acpi_irq_helper_get(data)`. -/
def x86_acpi_irq_helper_get (env : TabletEnv) (data : x86_acpi_irq_data)
    (t : List TabletEvent) : Int × List TabletEvent :=
  match data.type with
  | x86_acpi_irq_type.X86_ACPI_IRQ_TYPE_APIC =>
    let irq := env.ret t
    (irq, t ++ [TabletEvent.acpi_register_gsi data.index data.trigger data.polarity irq])
  | x86_acpi_irq_type.X86_ACPI_IRQ_TYPE_GPIOINT =>
    let chip := env.ret t
    let t := t ++ [TabletEvent.gpiochip_find data.chip chip]
    if chip = 0 then (-ENODEV, t)
    else
      let gpiod := env.ret t
      let t := t ++ [TabletEvent.gpiochip_get_desc chip data.index gpiod]
      if IS_ERR_long gpiod then (gpiod, t)
      else
        let irq := env.ret t
        let t := t ++ [TabletEvent.gpiod_to_irq gpiod irq]
        if irq < 0 then (irq, t)
        else
          let irq_type := env.ret t
          let t := t ++ [TabletEvent.acpi_dev_get_irq_type data.trigger data.polarity irq_type]
          if irq_type ≠ IRQ_TYPE_NONE then
            let cur := env.ret t
            let t := t ++ [TabletEvent.irq_get_trigger_type irq cur]
            if irq_type ≠ cur then (irq, t ++ [TabletEvent.irq_set_irq_type irq irq_type])
            else (irq, t)
          else (irq, t)
  | x86_acpi_irq_type.X86_ACPI_IRQ_TYPE_PMIC =>
    let status := env.ret t
    let handle := env.out t
    let t := t ++ [TabletEvent.acpi_get_handle data.chip status handle]
    if status ≠ 0 then (-ENODEV, t)
    else
      let adev := env.out t
      let t := t ++ [TabletEvent.acpi_bus_get_device handle adev]
      if adev = 0 then (-ENODEV, t)
      else
        let domain := env.ret t
        let t := t ++ [TabletEvent.irq_find_matching_fwspec adev data.domain domain]
        if domain = 0 then (-ENODEV, t)
        else
          let irq := env.ret t
          (irq, t ++ [TabletEvent.irq_create_mapping domain data.index irq])
  | x86_acpi_irq_type.X86_ACPI_IRQ_TYPE_NONE => (0, t)

/-- The function `x86_instantiate_i2c_client(dev_info, idx)`: return value, variables and
trace afterwards.  `idx` lies within `i2c_client_info` at every call; the first case only
makes the function total. -/
def x86_instantiate_i2c_client (env : TabletEnv) (dev_info : x86_dev_info) (idx : Nat)
    (g : tablet_globals) (t : List TabletEvent) : Int × tablet_globals × List TabletEvent :=
  match dev_info.i2c_client_info[idx]? with
  | none => (-ENODEV, g, t)
  | some client_info =>
    let board_info := client_info.board_info
    let r := x86_acpi_irq_helper_get env client_info.irq_data t
    let board_info := { board_info with irq := r.1 }
    let t := r.2
    if board_info.irq < 0 then (board_info.irq, g, t)
    else
      let status := env.ret t
      let handle := env.out t
      let t := t ++ [TabletEvent.acpi_get_handle (some client_info.adapter_path) status handle]
      if status ≠ 0 then (-ENODEV, g, t)
      else
        let adap := env.ret t
        let t := t ++ [TabletEvent.i2c_acpi_find_adapter_by_handle handle adap]
        if adap = 0 then (-ENODEV, g, t)
        else
          let client := env.ret t
          let t := t ++ [TabletEvent.i2c_new_client_device adap board_info client]
          let g := { g with i2c_clients_elems := g.i2c_clients_elems.set idx client }
          let t := t ++ [TabletEvent.put_device adap]
          if IS_ERR_long client then (client, g, t ++ [TabletEvent.dev_err_probe adap client])
          else (0, g, t)

/-- The function `x86_instantiate_serdev(info, idx)`. -/
def x86_instantiate_serdev (env : TabletEnv) (info : x86_serdev_info) (idx : Nat)
    (g : tablet_globals) (t : List TabletEvent) : Int × tablet_globals × List TabletEvent :=
  let ret := -ENODEV
  let ctrl_adev := env.ret t
  let t := t ++ [TabletEvent.acpi_dev_get_first_match_dev info.ctrl_hid (some info.ctrl_uid)
    ctrl_adev]
  if ctrl_adev = 0 then (-ENODEV, g, t)
  else
    let serdev_adev := env.ret t
    let t := t ++ [TabletEvent.acpi_dev_get_first_match_dev info.serdev_hid none serdev_adev]
    if serdev_adev = 0 then
      (ret, g, t ++ [TabletEvent.acpi_dev_put ctrl_adev])
    else
      let ctrl_dev := env.ret t
      let t := t ++ [TabletEvent.acpi_get_first_physical_node ctrl_adev ctrl_dev]
      if ctrl_dev = 0 then
        (ret, g, t ++ [TabletEvent.acpi_dev_put serdev_adev, TabletEvent.acpi_dev_put ctrl_adev])
      else
        let parent := ctrl_dev
        let ctrl_dev := env.ret t
        let t := t ++ [TabletEvent.device_find_child_by_name parent info.ctrl_devname ctrl_dev]
        if ctrl_dev = 0 then
          (ret, g, t ++ [TabletEvent.acpi_dev_put serdev_adev,
                         TabletEvent.acpi_dev_put ctrl_adev])
        else
          let serdev := env.ret t
          let t := t ++ [TabletEvent.serdev_device_alloc ctrl_dev serdev]
          if serdev = 0 then
            (-ENOMEM, g, t ++ [TabletEvent.acpi_dev_put serdev_adev,
                               TabletEvent.acpi_dev_put ctrl_adev])
          else
            let t := t ++ [TabletEvent.ACPI_COMPANION_SET serdev serdev_adev,
                           TabletEvent.acpi_device_set_enumerated serdev_adev]
            let ret := env.ret t
            let t := t ++ [TabletEvent.serdev_device_add serdev ret]
            if ret ≠ 0 then
              (ret, g, t ++ [TabletEvent.serdev_device_put serdev,
                             TabletEvent.acpi_dev_put serdev_adev,
                             TabletEvent.acpi_dev_put ctrl_adev])
            else
              let g := { g with serdevs_elems := g.serdevs_elems.set idx serdev }
              (ret, g, t ++ [TabletEvent.acpi_dev_put serdev_adev,
                             TabletEvent.acpi_dev_put ctrl_adev])

/-- A call of an `init` or `exit` hook: return value and trace afterwards. -/
def x86_hook_call (h : x86_hook) (t : List TabletEvent) : Int × List TabletEvent :=
  match h with
  | x86_hook.czc_p10t_init => (0, t ++ [TabletEvent.outb CZC_EC_ANDROID_KEYS CZC_EC_EXTRA_PORT])

/-- The function `x86_android_tablet_cleanup()`: the trace afterwards (it assigns to no
variable). -/
def x86_android_tablet_cleanup (g : tablet_globals) (t : List TabletEvent) :
    List TabletEvent :=
  let t := t ++ ((List.range g.serdev_count).filterMap fun i =>
    if g.serdevs_elems.getD i 0 ≠ 0 then
      some (TabletEvent.serdev_device_remove (g.serdevs_elems.getD i 0))
    else none)
  let t := t ++ [TabletEvent.kfree g.serdevs]
  let t := t ++ ((List.range g.pdev_count).map fun i =>
    TabletEvent.platform_device_unregister (g.pdevs_elems.getD i 0))
  let t := t ++ [TabletEvent.kfree g.pdevs]
  let t := t ++ ((List.range g.i2c_client_count).map fun i =>
    TabletEvent.i2c_unregister_device (g.i2c_clients_elems.getD i 0))
  let t := t ++ [TabletEvent.kfree g.i2c_clients]
  let t := match g.exit_handler with
    | some h => (x86_hook_call h t).2
    | none => t
  match g.gpiod_lookup_tables with
  | some tables => t ++ tables.map TabletEvent.gpiod_remove_lookup_table
  | none => t

/-- The loop over `i2c_client_count` in `x86_android_tablet_init`, with `i` the loop counter
and `k` the number of iterations left.  `some ret` in the first component: the loop was left
by `return ret` (after the cleanup). -/
def x86_android_tablet_init_i2c (env : TabletEnv) (dev_info : x86_dev_info) :
    Nat → Nat → tablet_globals → List TabletEvent →
      Option Int × tablet_globals × List TabletEvent
  | 0, _, g, t => (none, g, t)
  | k + 1, i, g, t =>
    let r := x86_instantiate_i2c_client env dev_info i g t
    if r.1 < 0 then (some r.1, r.2.1, x86_android_tablet_cleanup r.2.1 r.2.2)
    else x86_android_tablet_init_i2c env dev_info k (i + 1) r.2.1 r.2.2

/-- The loop over `pdev_count` in `x86_android_tablet_init`, see
`x86_android_tablet_init_i2c`. -/
def x86_android_tablet_init_pdevs (env : TabletEnv) (dev_info : x86_dev_info) :
    Nat → Nat → tablet_globals → List TabletEvent →
      Option Int × tablet_globals × List TabletEvent
  | 0, _, g, t => (none, g, t)
  | k + 1, i, g, t =>
    let info := dev_info.pdev_info.getD i { name := "", id := 0 }
    let pdev := env.ret t
    let t := t ++ [TabletEvent.platform_device_register_full info pdev]
    let g := { g with pdevs_elems := g.pdevs_elems.set i pdev }
    if IS_ERR_long pdev then (some pdev, g, x86_android_tablet_cleanup g t)
    else x86_android_tablet_init_pdevs env dev_info k (i + 1) g t

/-- The loop over `serdev_count` in `x86_android_tablet_init`, see
`x86_android_tablet_init_i2c`. -/
def x86_android_tablet_init_serdevs (env : TabletEnv) (dev_info : x86_dev_info) :
    Nat → Nat → tablet_globals → List TabletEvent →
      Option Int × tablet_globals × List TabletEvent
  | 0, _, g, t => (none, g, t)
  | k + 1, i, g, t =>
    let info := dev_info.serdev_info.getD i
      { ctrl_hid := "", ctrl_uid := "", ctrl_devname := "", serdev_hid := "" }
    let r := x86_instantiate_serdev env info i g t
    if r.1 < 0 then (some r.1, r.2.1, x86_android_tablet_cleanup r.2.1 r.2.2)
    else x86_android_tablet_init_serdevs env dev_info k (i + 1) r.2.1 r.2.2

/-- The function `x86_android_tablet_init()`, on a system with DMI strings `dmi_ident` and
for the table `ids`: return value, variables and trace afterwards. -/
def x86_android_tablet_init (env : TabletEnv) (dmi_ident : dmi_field → Option String)
    (ids : List dmi_system_id) (g : tablet_globals) (t : List TabletEvent) :
    Int × tablet_globals × List TabletEvent :=
  match dmi_first_match dmi_ident ids with
  | none => (-ENODEV, g, t)
  | some id =>
    let dev_info := id.driver_data
    let aei : Option Int × List TabletEvent :=
      match dev_info.invalid_aei_gpiochip with
      | none => (none, t)
      | some label =>
        let chip := env.ret t
        let t := t ++ [TabletEvent.gpiochip_find (some label) chip]
        if chip = 0 then (some (-ENODEV), t)
        else (none, t ++ [TabletEvent.acpi_gpiochip_free_interrupts chip])
    match aei with
    | (some ret, t) => (ret, g, t)
    | (none, t) =>
      let t := t ++ (dev_info.modules.getD []).map TabletEvent.request_module
      let g := { g with gpiod_lookup_tables := dev_info.gpiod_lookup_tables }
      let t := t ++ (g.gpiod_lookup_tables.getD []).map TabletEvent.gpiod_add_lookup_table
      let hook : Option Int × tablet_globals × List TabletEvent :=
        match dev_info.init with
        | none => (none, g, t)
        | some h =>
          let r := x86_hook_call h t
          if r.1 < 0 then (some r.1, g, x86_android_tablet_cleanup g r.2)
          else (none, { g with exit_handler := dev_info.exit }, r.2)
      match hook with
      | (some ret, g, t) => (ret, g, t)
      | (none, g, t) =>
        let i2c_clients := env.ret t
        let t := t ++ [TabletEvent.kcalloc dev_info.i2c_client_count i2c_clients]
        let g := { g with i2c_clients := i2c_clients,
                          i2c_clients_elems := List.replicate dev_info.i2c_client_count 0 }
        if i2c_clients = 0 then (-ENOMEM, g, x86_android_tablet_cleanup g t)
        else
          let g := { g with i2c_client_count := dev_info.i2c_client_count }
          match x86_android_tablet_init_i2c env dev_info g.i2c_client_count 0 g t with
          | (some ret, g, t) => (ret, g, t)
          | (none, g, t) =>
            let pdevs := env.ret t
            let t := t ++ [TabletEvent.kcalloc dev_info.pdev_count pdevs]
            let g := { g with pdevs := pdevs,
                              pdevs_elems := List.replicate dev_info.pdev_count 0 }
            if pdevs = 0 then (-ENOMEM, g, x86_android_tablet_cleanup g t)
            else
              let g := { g with pdev_count := dev_info.pdev_count }
              match x86_android_tablet_init_pdevs env dev_info g.pdev_count 0 g t with
              | (some ret, g, t) => (ret, g, t)
              | (none, g, t) =>
                let serdevs := env.ret t
                let t := t ++ [TabletEvent.kcalloc dev_info.serdev_count serdevs]
                let g := { g with serdevs := serdevs,
                                  serdevs_elems := List.replicate dev_info.serdev_count 0 }
                if serdevs = 0 then (-ENOMEM, g, x86_android_tablet_cleanup g t)
                else
                  let g := { g with serdev_count := dev_info.serdev_count }
                  match x86_android_tablet_init_serdevs env dev_info g.serdev_count 0 g t with
                  | (some ret, g, t) => (ret, g, t)
                  | (none, g, t) => (0, g, t)

/-- The DMI strings of a machine that is none of the tablets. -/
def demo_dmi_other : dmi_field → Option String
  | dmi_field.DMI_SYS_VENDOR => some "Dell Inc."
  | dmi_field.DMI_PRODUCT_NAME => some "XPS 13 9310"
  | dmi_field.DMI_BOARD_VENDOR => some "Dell Inc."
  | dmi_field.DMI_BOARD_NAME => some "0MRT12"
  | dmi_field.DMI_BIOS_VERSION => some "3.6.0"

/-- The DMI strings of a Xiaomi Mi Pad 2. -/
def demo_dmi_mipad2 : dmi_field → Option String
  | dmi_field.DMI_SYS_VENDOR => some "Xiaomi Inc"
  | dmi_field.DMI_PRODUCT_NAME => some "Mipad2"
  | _ => none

/-- An environment for the tablet driver in which every pointer asked for is `0x1000` and
the two `acpi_get_handle` calls made on a Xiaomi Mi Pad 2 (the second and the sixth external
call) return the status 0. -/
def demo_tablet_env : TabletEnv :=
  { ret := fun t => if t.length = 1 ∨ t.length = 5 then 0 else 0x1000,
    out := fun _ => 0x1000 }

/-! # Theorems -/

/-! ## Machine-word facts -/

theorem wsub_of_le (a b : Nat) (ha : a < 2 ^ 64) (hb : b ≤ a) : wsub a b = a - b := by
  unfold wsub ulong WORD
  omega

theorem wsub_int (a b : Nat) : ((wsub a b : Nat) : Int) = ((a : Int) - (b : Int)) % 2 ^ 64 := by
  unfold wsub ulong WORD
  omega

theorem IS_ERR_OR_NULL_iff (ptr : Nat) (hp : ptr < 2 ^ 64) :
    IS_ERR_OR_NULL ptr = true ↔ (ptr = 0 ∨ 2 ^ 64 - 4095 ≤ ptr) := by
  unfold IS_ERR_OR_NULL IS_ERR_VALUE wsub ulong WORD MAX_ERRNO
  simp only [Bool.or_eq_true, beq_iff_eq, decide_eq_true_eq]
  omega

/-- C1: `container_of_safe` hands back every `IS_ERR_OR_NULL` pointer unchanged, in either
build configuration, and these pointers are exactly `0` and the addresses from
`2^64 - 4095` up. -/
theorem container_of_safe_err_or_null (kasan : Bool) (a_in a_out : Nat)
    (g : ContainerOfGlobals) (ptr off : Nat) (hp : ptr < 2 ^ 64) :
    (IS_ERR_OR_NULL ptr = true ↔ (ptr = 0 ∨ 2 ^ 64 - 4095 ≤ ptr)) ∧
    (IS_ERR_OR_NULL ptr = true →
      (container_of_safe kasan a_in a_out g ptr off).1 = ptr ∧
      __uncontained_container_of_safe ptr off = ptr) := by
  refine ⟨IS_ERR_OR_NULL_iff ptr hp, fun h => ?_⟩
  have hu : ulong ptr = ptr := by unfold ulong WORD; omega
  cases kasan <;> simp [container_of_safe, container_of_safe_expr, arg_expr.value,
    arg_expr.cast_ulong, __uncontained_container_of_safe, h, ERR_CAST, hu]

theorem container_of_safe_err_or_null_witness :
    (container_of_safe true 7 9 ⟨0, 0, 0, 0⟩ (2 ^ 64 - 1) 16).1 = 2 ^ 64 - 1 ∧
    __uncontained_container_of_safe (2 ^ 64 - 1) 16 = 2 ^ 64 - 1 :=
  (container_of_safe_err_or_null true 7 9 ⟨0, 0, 0, 0⟩ (2 ^ 64 - 1) 16 (by decide)).2
    (by decide)

/-- C2: `container_of` maps the address of a member back to the address of its container:
`container_of(c + o) = c` whenever `c + o` does not wrap, and in general the result is
`ptr - offsetof(type, member)` modulo `2^64`. -/
theorem container_of_member (kasan : Bool) (a_in a_out : Nat) (g : ContainerOfGlobals) :
    (∀ c o : Nat, c + o < 2 ^ 64 → (container_of kasan a_in a_out g (c + o) o).1 = c) ∧
    (∀ ptr off : Nat,
      (((container_of kasan a_in a_out g ptr off).1 : Nat) : Int) =
        ((ptr : Int) - (off : Int)) % 2 ^ 64) := by
  constructor
  · intro c o h
    have h1 : wsub (c + o) o = c := by
      rw [wsub_of_le (c + o) o h (by omega)]; omega
    have h2 : ulong c = c := by unfold ulong WORD; omega
    cases kasan <;> simp [container_of, container_of_expr, arg_expr.value,
      arg_expr.cast_ulong, __uncontained_container_of, h1, h2]
  · intro ptr off
    have h2 : ulong (wsub ptr off) = wsub ptr off := by
      unfold wsub ulong WORD; omega
    cases kasan <;> simp only [container_of, container_of_expr, arg_expr.value,
      __uncontained_container_of, h2, if_true, Bool.false_eq_true, if_false] <;>
      exact wsub_int ptr off

theorem container_of_member_witness :
    (container_of false 7 9 ⟨0, 0, 0, 0⟩ (0x1000 + 24) 24).1 = 0x1000 :=
  (container_of_member false 7 9 ⟨0, 0, 0, 0⟩).1 0x1000 24 (by decide)

/-- C3: on a pointer that is neither `NULL` nor an error pointer, `container_of_safe` and
`container_of` agree (value and recorded globals). -/
theorem container_of_safe_eq_container_of (kasan : Bool) (a_in a_out : Nat)
    (g : ContainerOfGlobals) (ptr off : Nat) (h0 : 0 < ptr) (h1 : ptr < 2 ^ 64 - 4095) :
    container_of_safe kasan a_in a_out g ptr off = container_of kasan a_in a_out g ptr off := by
  have hn : IS_ERR_OR_NULL ptr = false := by
    have := IS_ERR_OR_NULL_iff ptr (by omega)
    cases h : IS_ERR_OR_NULL ptr
    · rfl
    · exfalso; have := this.1 h; omega
  simp [container_of_safe, container_of, container_of_safe_expr, container_of_expr,
    arg_expr.value, __uncontained_container_of_safe, __uncontained_container_of, hn]

theorem container_of_safe_eq_container_of_witness :
    container_of_safe true 7 9 ⟨0, 0, 0, 0⟩ 0x1018 24 =
      container_of true 7 9 ⟨0, 0, 0, 0⟩ 0x1018 24 :=
  container_of_safe_eq_container_of true 7 9 ⟨0, 0, 0, 0⟩ 0x1018 24 (by decide) (by decide)

/-! ## The policy tables -/

theorem intel_vsec_allowed_iff (id : Nat) :
    intel_vsec_allowed id = true ↔ (id = 2 ∨ id = 3 ∨ id = 4) := by
  simp only [intel_vsec_allowed, intel_vsec_allow_list, intel_vsec_allowed_from,
    VSEC_ID_TELEMETRY, VSEC_ID_WATCHER, VSEC_ID_CRASHLOG]
  constructor
  · intro h
    by_cases h2 : 2 = id
    · omega
    · by_cases h3 : 3 = id
      · omega
      · by_cases h4 : 4 = id
        · omega
        · simp [h2, h3, h4] at h
  · rintro (h | h | h) <;> subst h <;> simp

theorem intel_vsec_disabled_iff (id quirks : Nat) :
    intel_vsec_disabled id quirks = true ↔
      ((id = 3 ∧ quirks &&& VSEC_QUIRK_NO_WATCHER ≠ 0) ∨
       (id = 4 ∧ quirks &&& VSEC_QUIRK_NO_CRASHLOG ≠ 0)) := by
  unfold intel_vsec_disabled VSEC_ID_WATCHER VSEC_ID_CRASHLOG
  by_cases h3 : id = 3
  · subst h3; simp
  · by_cases h4 : id = 4
    · subst h4; simp
    · simp [h3, h4]

/-- C5: the policy check comes first.  A header whose id is not on the allow list
`{2, 3, 4}`, or is the watcher (3) under `VSEC_QUIRK_NO_WATCHER`, or the crashlog (4) under
`VSEC_QUIRK_NO_CRASHLOG`, makes `intel_vsec_add_dev` return `-EINVAL = -22` with the trace
untouched (no allocation, no auxiliary device), no device built and the header as it was;
telemetry (2) is allowed and no quirk value disables it. -/
theorem intel_vsec_add_dev_policy (env : Env) (pdev : pci_dev) (header : intel_vsec_header)
    (quirks : Nat) (t : List Event) :
    ((¬ (header.id = 2 ∨ header.id = 3 ∨ header.id = 4) ∨
      (header.id = 3 ∧ quirks &&& VSEC_QUIRK_NO_WATCHER ≠ 0) ∨
      (header.id = 4 ∧ quirks &&& VSEC_QUIRK_NO_CRASHLOG ≠ 0)) →
      intel_vsec_add_dev env pdev header quirks t =
        { ret := -22, header := header, dev := none, trace := t }) ∧
    (intel_vsec_allowed VSEC_ID_TELEMETRY = true ∧
      ∀ q : Nat, intel_vsec_disabled VSEC_ID_TELEMETRY q = false) := by
  refine ⟨fun h => ?_, by decide, fun q => by simp [intel_vsec_disabled, VSEC_ID_TELEMETRY,
    VSEC_ID_WATCHER, VSEC_ID_CRASHLOG]⟩
  have hc : (!intel_vsec_allowed header.id || intel_vsec_disabled header.id quirks) = true := by
    rcases h with h | h
    · have : intel_vsec_allowed header.id = false := by
        cases ha : intel_vsec_allowed header.id
        · rfl
        · exact absurd ((intel_vsec_allowed_iff _).1 ha) h
      simp [this]
    · have := (intel_vsec_disabled_iff header.id quirks).2 h
      simp [this]
  unfold intel_vsec_add_dev
  rw [if_pos hc]
  rfl

/-- C6: a header with `num_entries == 0` or `entry_size == 0` is rejected with
`-EINVAL = -22`; nothing is allocated or registered (the trace is untouched), no device is
built, and the header, `offset` included, is left as it was, whatever the quirks. -/
theorem intel_vsec_add_dev_zero_entries (env : Env) (pdev : pci_dev)
    (header : intel_vsec_header) (quirks : Nat) (t : List Event)
    (h : header.num_entries = 0 ∨ header.entry_size = 0) :
    intel_vsec_add_dev env pdev header quirks t =
      { ret := -22, header := header, dev := none, trace := t } := by
  unfold intel_vsec_add_dev
  split
  · rfl
  · split
    · rfl
    · split
      · rfl
      · rename_i h1 h2
        omega

/-! ## The resource array -/

theorem fill_resources_length (pdev : pci_dev) (header : intel_vsec_header) (k i : Nat) :
    (intel_vsec_fill_resources pdev header k i).length = k := by
  induction k generalizing i with
  | zero => rfl
  | succ k ih => simp [intel_vsec_fill_resources, ih]

theorem fill_start_eq (bar off es i : Nat) :
    ulong (ulong (ulong bar + off) + ulong (i * ulong (es * 4))) =
      (bar + off + i * (es * 4)) % 2 ^ 64 := by
  simp only [ulong, WORD]
  simp [Nat.add_mod, Nat.mul_mod]

theorem fill_end_eq (s es : Nat) (hes : es ≠ 0) :
    wsub (ulong (s + ulong (es * 4))) 1 = (s + es * 4 - 1) % 2 ^ 64 := by
  simp only [wsub, ulong, WORD]
  omega

theorem fill_resources_get (pdev : pci_dev) (header : intel_vsec_header)
    (hes : header.entry_size ≠ 0) (k i j : Nat) (hj : j < k) :
    (intel_vsec_fill_resources pdev header k i)[j]? =
      some (table_resource (pdev.resource_start header.tbir) header.offset
        header.entry_size (i + j)) := by
  induction k generalizing i j with
  | zero => omega
  | succ k ih =>
    cases j with
    | zero =>
      simp only [intel_vsec_fill_resources, List.getElem?_cons_zero, table_resource,
        fill_start_eq, fill_end_eq _ _ hes, Nat.add_zero]
    | succ j =>
      simp only [intel_vsec_fill_resources, List.getElem?_cons_succ]
      rw [ih (i + 1) j (by omega)]
      congr 2
      omega

/-- Characterisation of acceptance: the device is built exactly when the header passes the
checks and both allocations succeed, and it is then the device with the filled array. -/
theorem add_dev_dev_eq (env : Env) (pdev : pci_dev) (header : intel_vsec_header)
    (quirks : Nat) (t : List Event) (d : intel_vsec_device)
    (hd : (intel_vsec_add_dev env pdev header quirks t).dev = some d) :
    header.num_entries ≠ 0 ∧ header.entry_size ≠ 0 ∧
    d = { auxdev_id := 0, auxdev_name := none,
          resource := intel_vsec_fill_resources pdev
            { header with offset := table_off header quirks } header.num_entries 0,
          num_resources := header.num_entries, quirks := quirks } := by
  unfold intel_vsec_add_dev at hd
  simp only at hd
  split at hd
  · simp at hd
  · split at hd
    · simp at hd
    · split at hd
      · simp at hd
      · split at hd
        · simp at hd
        · split at hd
          · simp at hd
          · rename_i h1 h2 h3 h4 h5
            refine ⟨h2, h3, ?_⟩
            simp only [Option.some.injEq] at hd
            rw [← hd]
            unfold table_off TABLE_OFFSET_SHIFT
            split <;> rfl

theorem add_dev_ret_zero_dev (env : Env) (pdev : pci_dev) (header : intel_vsec_header)
    (quirks : Nat) (t : List Event)
    (h : (intel_vsec_add_dev env pdev header quirks t).ret = 0) :
    ∃ d, (intel_vsec_add_dev env pdev header quirks t).dev = some d := by
  unfold intel_vsec_add_dev at h ⊢
  simp only at h ⊢
  split
  · rename_i hc; rw [if_pos hc] at h; simp [EINVAL] at h
  · rename_i hc; rw [if_neg hc] at h
    split
    · rename_i hc; rw [if_pos hc] at h; simp [EINVAL] at h
    · rename_i hc; rw [if_neg hc] at h
      split
      · rename_i hc; rw [if_pos hc] at h; simp [EINVAL] at h
      · rename_i hc; rw [if_neg hc] at h
        split
        · rename_i hc; rw [if_pos hc] at h; simp [ENOMEM] at h
        · rename_i hc; rw [if_neg hc] at h
          split
          · rename_i hc; rw [if_pos hc] at h; simp [ENOMEM] at h
          · exact ⟨_, rfl⟩

/-- C4: whenever `intel_vsec_add_dev` gets as far as building its device (in particular
whenever it returns 0), the resource array has exactly `num_entries` entries and entry
`i` is the memory resource with `start = BAR[tbir].start + off + i * (entry_size * 4)` and
`end = start + entry_size * 4 - 1`, computed in 64-bit `resource_size_t`, where `off` is
`header.offset`, or `header.offset >> 3` under `VSEC_QUIRK_TABLE_SHIFT`; when the block of
tables ends within the 64-bit address space these are the exact sums. -/
theorem intel_vsec_add_dev_resources (env : Env) (pdev : pci_dev)
    (header : intel_vsec_header) (quirks : Nat) (t : List Event) :
    ((intel_vsec_add_dev env pdev header quirks t).ret = 0 →
      ∃ d, (intel_vsec_add_dev env pdev header quirks t).dev = some d) ∧
    ∀ d, (intel_vsec_add_dev env pdev header quirks t).dev = some d →
      d.resource.length = header.num_entries ∧
      d.num_resources = header.num_entries ∧
      (∀ i, i < header.num_entries →
        d.resource[i]? = some
          { start := (pdev.resource_start header.tbir + table_off header quirks +
              i * (header.entry_size * 4)) % 2 ^ 64,
            end_ := ((pdev.resource_start header.tbir + table_off header quirks +
              i * (header.entry_size * 4)) % 2 ^ 64 + header.entry_size * 4 - 1) % 2 ^ 64,
            flags := IORESOURCE_MEM }) ∧
      (pdev.resource_start header.tbir + table_off header quirks +
          header.num_entries * (header.entry_size * 4) ≤ 2 ^ 64 →
        ∀ i, i < header.num_entries →
          d.resource[i]? = some
            { start := pdev.resource_start header.tbir + table_off header quirks +
                i * (header.entry_size * 4),
              end_ := pdev.resource_start header.tbir + table_off header quirks +
                i * (header.entry_size * 4) + header.entry_size * 4 - 1,
              flags := IORESOURCE_MEM }) := by
  refine ⟨add_dev_ret_zero_dev env pdev header quirks t, fun d hd => ?_⟩
  obtain ⟨hne, hes, rfl⟩ := add_dev_dev_eq env pdev header quirks t d hd
  have hget : ∀ i, i < header.num_entries →
      (intel_vsec_fill_resources pdev { header with offset := table_off header quirks }
        header.num_entries 0)[i]? = some (table_resource (pdev.resource_start header.tbir)
          (table_off header quirks) header.entry_size i) := by
    intro i hi
    have := fill_resources_get pdev { header with offset := table_off header quirks } hes
      header.num_entries 0 i hi
    simpa using this
  refine ⟨fill_resources_length _ _ _ _, rfl, fun i hi => ?_, fun hb i hi => ?_⟩
  · simp only [hget i hi, table_resource]
  · simp only [hget i hi, table_resource]
    have hmul : (i + 1) * (header.entry_size * 4) ≤
        header.num_entries * (header.entry_size * 4) :=
      Nat.mul_le_mul_right _ (by omega)
    have h4 : 0 < header.entry_size * 4 := by omega
    rw [Nat.add_mul, Nat.one_mul] at hmul
    generalize pdev.resource_start header.tbir + table_off header quirks = b at *
    generalize i * (header.entry_size * 4) = x at *
    generalize header.num_entries * (header.entry_size * 4) = n at *
    generalize header.entry_size * 4 = e at *
    have h1 : (b + x) % 2 ^ 64 = b + x := Nat.mod_eq_of_lt (by omega)
    rw [h1]
    have h2 : (b + x + e - 1) % 2 ^ 64 = b + x + e - 1 := Nat.mod_eq_of_lt (by omega)
    rw [h2]

/-! ## The walker loops as scans -/

theorem dvsec_loop_eq_scan (env : Env) (pdev : pci_dev) (quirks : Nat) (fuel pos : Nat)
    (hd : Bool) (t : List Event) :
    intel_vsec_walk_dvsec_loop env pdev quirks fuel pos hd t =
      scan pdev PCI_EXT_CAP_ID_DVSEC (dvsec_body env pdev quirks) fuel pos hd t := by
  induction fuel generalizing pos hd t with
  | zero => rfl
  | succ fuel ih =>
    unfold intel_vsec_walk_dvsec_loop scan
    simp only [ih]
    split
    · rfl
    · by_cases hv : dvsec_vid pdev
          (pci_find_next_ext_capability pdev pos PCI_EXT_CAP_ID_DVSEC) = PCI_VENDOR_ID_INTEL
      · by_cases hr : dvsec_rev pdev
            (pci_find_next_ext_capability pdev pos PCI_EXT_CAP_ID_DVSEC) = 1
        · have hv' := hv
          have hr' := hr
          unfold dvsec_vid at hv'
          unfold dvsec_rev at hr'
          simp only [dvsec_body, hv, hr, hv', hr', ne_eq, not_true_eq_false, if_false,
            List.append_assoc, List.singleton_append, List.cons_append, List.nil_append]
          have hh : (⟨1, u16 (PCI_DVSEC_HEADER1_LEN (u32 (pdev.config_dword
              (pci_find_next_ext_capability pdev pos PCI_EXT_CAP_ID_DVSEC + PCI_DVSEC_HEADER1)))),
              u16 (PCI_DVSEC_HEADER2_ID (u32 (pdev.config_dword
              (pci_find_next_ext_capability pdev pos PCI_EXT_CAP_ID_DVSEC + PCI_DVSEC_HEADER2)))),
              u8 (pdev.config_byte
              (pci_find_next_ext_capability pdev pos PCI_EXT_CAP_ID_DVSEC + INTEL_DVSEC_ENTRIES)),
              u8 (pdev.config_byte
              (pci_find_next_ext_capability pdev pos PCI_EXT_CAP_ID_DVSEC + INTEL_DVSEC_SIZE)),
              u8 (INTEL_DVSEC_TABLE_BAR (u32 (pdev.config_dword
              (pci_find_next_ext_capability pdev pos PCI_EXT_CAP_ID_DVSEC + INTEL_DVSEC_TABLE)))),
              u32 (INTEL_DVSEC_TABLE_OFFSET (u32 (pdev.config_dword
              (pci_find_next_ext_capability pdev pos PCI_EXT_CAP_ID_DVSEC + INTEL_DVSEC_TABLE))))⟩
                : intel_vsec_header) =
              dvsec_header pdev (pci_find_next_ext_capability pdev pos PCI_EXT_CAP_ID_DVSEC) := by
            simp only [dvsec_header, table_fields, hr]
          rw [hh]
          split
          · rename_i h0; simp [h0]
          · rename_i h0; simp at h0; simp [h0]
        · have hv' := hv
          have hr' := hr
          unfold dvsec_vid at hv'
          unfold dvsec_rev at hr'
          simp [dvsec_body, hv, hr, hv', hr']
      · have hv' := hv
        unfold dvsec_vid at hv'
        simp [dvsec_body, hv, hv']

theorem vsec_loop_eq_scan (env : Env) (pdev : pci_dev) (quirks : Nat) (fuel pos : Nat)
    (hd : Bool) (t : List Event) :
    intel_vsec_walk_vsec_loop env pdev quirks fuel pos hd t =
      scan pdev PCI_EXT_CAP_ID_VNDR (vsec_body env pdev quirks) fuel pos hd t := by
  induction fuel generalizing pos hd t with
  | zero => rfl
  | succ fuel ih =>
    unfold intel_vsec_walk_vsec_loop scan
    simp only [ih]
    split
    · rfl
    · by_cases hr : vsec_rev pdev
          (pci_find_next_ext_capability pdev pos PCI_EXT_CAP_ID_VNDR) = 1
      · have hr' := hr
        unfold vsec_rev at hr'
        simp only [vsec_body, hr, hr', ne_eq, not_true_eq_false, if_false,
          List.append_assoc, List.singleton_append, List.cons_append, List.nil_append]
        have hh : (⟨1, u16 (PCI_VNDR_HEADER_LEN (u32 (pdev.config_dword
            (pci_find_next_ext_capability pdev pos PCI_EXT_CAP_ID_VNDR + PCI_VNDR_HEADER)))),
            u16 (PCI_VNDR_HEADER_ID (u32 (pdev.config_dword
            (pci_find_next_ext_capability pdev pos PCI_EXT_CAP_ID_VNDR + PCI_VNDR_HEADER)))),
            u8 (pdev.config_byte
            (pci_find_next_ext_capability pdev pos PCI_EXT_CAP_ID_VNDR + INTEL_DVSEC_ENTRIES)),
            u8 (pdev.config_byte
            (pci_find_next_ext_capability pdev pos PCI_EXT_CAP_ID_VNDR + INTEL_DVSEC_SIZE)),
            u8 (INTEL_DVSEC_TABLE_BAR (u32 (pdev.config_dword
            (pci_find_next_ext_capability pdev pos PCI_EXT_CAP_ID_VNDR + INTEL_DVSEC_TABLE)))),
            u32 (INTEL_DVSEC_TABLE_OFFSET (u32 (pdev.config_dword
            (pci_find_next_ext_capability pdev pos PCI_EXT_CAP_ID_VNDR + INTEL_DVSEC_TABLE))))⟩
              : intel_vsec_header) =
            vsec_header pdev (pci_find_next_ext_capability pdev pos PCI_EXT_CAP_ID_VNDR) := by
          simp only [vsec_header, table_fields, hr]
        rw [hh]
        split
        · rename_i h0; simp [h0]
        · rename_i h0; simp at h0; simp [h0]
      · have hr' := hr
        unfold vsec_rev at hr'
        simp [vsec_body, hr, hr']


/-! ## Lookup on a well-formed list -/

theorem find_next_eq (pdev : pci_dev) (start cap : Nat) :
    pci_find_next_ext_capability pdev start cap =
      match (caps_after pdev start).find? (fun c => decide (c.id = cap)) with
      | some c => c.pos
      | none => 0 := by
  unfold pci_find_next_ext_capability caps_after
  rfl

theorem caps_after_of_split (pdev : pci_dev) (hwf : caps_wf pdev) (pre suf : List ext_cap)
    (c : ext_cap) (h : pdev.ext_caps = pre ++ c :: suf) : caps_after pdev c.pos = suf := by
  obtain ⟨hnz, hnd⟩ := hwf
  have hc : c.pos ≠ 0 := hnz c (by rw [h]; simp)
  unfold caps_after
  rw [if_neg hc, h]
  rw [h, List.map_append, List.map_cons] at hnd
  have hpre : ∀ a ∈ pre, (fun c' : ext_cap => decide (c'.pos ≠ c.pos)) a = true := by
    intro a ha
    simp only [ne_eq, decide_not, Bool.not_eq_true', decide_eq_false_iff_not]
    intro hEq
    have hdis := (List.nodup_append.1 hnd).2.2
    exact hdis (List.mem_map_of_mem (fun c => c.pos) ha) (by rw [hEq]; simp)
  rw [List.dropWhile_append_of_pos hpre]
  simp

theorem scan_eq_spec_aux (pdev : pci_dev) (cap : Nat)
    (body : Nat → List Event → Bool × List Event) (hwf : caps_wf pdev) :
    ∀ (n : Nat) (suf : List ext_cap), suf.length ≤ n →
      ∀ (pre : List ext_cap) (prev fuel : Nat) (hd : Bool) (t : List Event),
        pdev.ext_caps = pre ++ suf → caps_after pdev prev = suf →
        ((suf.filter (fun c => decide (c.id = cap))).map (fun c => c.pos)).length < fuel →
        scan pdev cap body fuel prev hd t =
          some (scan_spec cap body
            ((suf.filter (fun c => decide (c.id = cap))).map (fun c => c.pos)) prev hd t) := by
  intro n
  induction n with
  | zero =>
    intro suf hlen pre prev fuel hd t _ hafter hfuel
    have hs : suf = [] := List.length_eq_zero.1 (by omega)
    subst hs
    cases fuel with
    | zero => simp at hfuel
    | succ fuel =>
      unfold scan
      simp only [find_next_eq, hafter, List.find?_nil, List.filter_nil, List.map_nil,
        scan_spec, if_true]
  | succ n ih =>
    intro suf hlen pre prev fuel hd t hsplit hafter hfuel
    cases fuel with
    | zero => simp at hfuel
    | succ fuel =>
      unfold scan
      simp only [find_next_eq, hafter]
      cases hf : suf.find? (fun c => decide (c.id = cap)) with
      | none =>
        have hnone : suf.filter (fun c => decide (c.id = cap)) = [] := by
          rw [List.filter_eq_nil_iff]
          intro a ha
          have := List.find?_eq_none.1 hf a ha
          simpa using this
        simp only [hnone, List.map_nil, scan_spec, if_true]
      | some c =>
        obtain ⟨hpc, as, bs, hsuf, has⟩ := List.find?_eq_some.1 hf
        have hasnil : as.filter (fun c => decide (c.id = cap)) = [] := by
          rw [List.filter_eq_nil_iff]
          intro a ha
          have := has a ha
          simpa using this
        have hfilt : (suf.filter (fun c => decide (c.id = cap))).map (fun c => c.pos) =
            c.pos :: (bs.filter (fun c => decide (c.id = cap))).map (fun c => c.pos) := by
          rw [hsuf, List.filter_append, hasnil, List.nil_append]
          simp [List.filter_cons, hpc]
        have hcaps : pdev.ext_caps = (pre ++ as) ++ c :: bs := by
          rw [hsplit, hsuf, List.append_assoc]
        have hcpos : c.pos ≠ 0 := hwf.1 c (by rw [hcaps]; simp)
        have hafter' : caps_after pdev c.pos = bs := caps_after_of_split pdev hwf _ _ c hcaps
        have hlen' : bs.length ≤ n := by
          rw [hsuf] at hlen
          simp only [List.length_append, List.length_cons] at hlen
          omega
        rw [hfilt] at hfuel ⊢
        simp only [List.length_cons] at hfuel
        simp only [hcpos, if_false, scan_spec]
        exact ih bs hlen' (pre ++ as ++ [c]) c.pos fuel _ _ (by rw [hcaps]; simp) hafter'
          (by omega)

theorem scan_eq_spec (pdev : pci_dev) (cap : Nat)
    (body : Nat → List Event → Bool × List Event) (hwf : caps_wf pdev)
    (fuel : Nat) (hfuel : (matching pdev cap).length < fuel) (hd : Bool) (t : List Event) :
    scan pdev cap body fuel 0 hd t = some (scan_spec cap body (matching pdev cap) 0 hd t) :=
  scan_eq_spec_aux pdev cap body hwf pdev.ext_caps.length pdev.ext_caps (Nat.le_refl _) []
    0 fuel hd t rfl (by simp [caps_after]) hfuel

theorem matching_length_le (pdev : pci_dev) (cap : Nat) :
    (matching pdev cap).length ≤ pdev.ext_caps.length := by
  unfold matching
  rw [List.length_map]
  exact List.length_filter_le _ _

theorem matching_nodup (pdev : pci_dev) (cap : Nat) (hwf : caps_wf pdev) :
    (matching pdev cap).Nodup := by
  unfold matching
  have hsub : List.Sublist ((pdev.ext_caps.filter (fun c => decide (c.id = cap))).map
      (fun c => c.pos)) (pdev.ext_caps.map (fun c => c.pos)) :=
    List.Sublist.map _ (List.filter_sublist _)
  exact List.Nodup.sublist hsub hwf.2

theorem matching_ne_zero (pdev : pci_dev) (cap : Nat) (hwf : caps_wf pdev) :
    ∀ p ∈ matching pdev cap, p ≠ 0 := by
  intro p hp
  unfold matching at hp
  obtain ⟨c, hc, rfl⟩ := List.mem_map.1 hp
  exact hwf.1 c (List.mem_filter.1 hc).1

/-! ## Traces of the loop bodies -/

theorem filterMap_internal {α : Type} (f : Event → Option α)
    (hf : ∀ e, e.add_dev_internal = true → f e = none) (evs : List Event)
    (h : ∀ e ∈ evs, e.add_dev_internal = true) : evs.filterMap f = [] := by
  induction evs with
  | nil => rfl
  | cons e evs ih =>
    rw [List.filterMap_cons, hf e (h e (by simp))]
    exact ih (fun e' he' => h e' (by simp [he']))

theorem add_aux_trace (env : Env) (d : intel_vsec_device) (name : Option String)
    (t : List Event) :
    ∃ evs, (intel_vsec_add_aux env d name t).2 = t ++ evs ∧
      ∀ e ∈ evs, e.add_dev_internal = true := by
  unfold intel_vsec_add_aux
  simp only
  split
  · (simp only [List.append_assoc]; exact ⟨_, rfl, by simp [Event.add_dev_internal]⟩)
  · split
    · (simp only [List.append_assoc]; exact ⟨_, rfl, by simp [Event.add_dev_internal]⟩)
    · split
      · (simp only [List.append_assoc]; exact ⟨_, rfl, by simp [Event.add_dev_internal]⟩)
      · (simp only [List.append_assoc]; exact ⟨_, rfl, by simp [Event.add_dev_internal]⟩)

theorem add_dev_trace (env : Env) (pdev : pci_dev) (header : intel_vsec_header)
    (quirks : Nat) (t : List Event) :
    ∃ evs, (intel_vsec_add_dev env pdev header quirks t).trace = t ++ evs ∧
      ∀ e ∈ evs, e.add_dev_internal = true := by
  unfold intel_vsec_add_dev
  simp only
  split
  · exact ⟨[], by simp, by simp⟩
  · split
    · exact ⟨[], by simp, by simp⟩
    · split
      · exact ⟨[], by simp, by simp⟩
      · split
        · exact ⟨_, rfl, by simp [Event.add_dev_internal]⟩
        · split
          · (simp only [List.append_assoc]; exact ⟨_, rfl, by simp [Event.add_dev_internal]⟩)
          · obtain ⟨evs, h1, h2⟩ := add_aux_trace env
              { auxdev_id := 0, auxdev_name := none,
                resource := intel_vsec_fill_resources pdev
                  (if quirks &&& VSEC_QUIRK_TABLE_SHIFT ≠ 0 then
                    { header with offset := header.offset >>> TABLE_OFFSET_SHIFT }
                   else header)
                  (if quirks &&& VSEC_QUIRK_TABLE_SHIFT ≠ 0 then
                    { header with offset := header.offset >>> TABLE_OFFSET_SHIFT }
                   else header).num_entries 0,
                num_resources := (if quirks &&& VSEC_QUIRK_TABLE_SHIFT ≠ 0 then
                    { header with offset := header.offset >>> TABLE_OFFSET_SHIFT }
                   else header).num_entries,
                quirks := quirks }
              (intel_vsec_name (if quirks &&& VSEC_QUIRK_TABLE_SHIFT ≠ 0 then
                    { header with offset := header.offset >>> TABLE_OFFSET_SHIFT }
                   else header).id)
              (t ++ [Event.kzalloc (decide (env t ≠ 0))] ++
                [Event.kcalloc header.num_entries
                  (decide (env (t ++ [Event.kzalloc (decide (env t ≠ 0))]) ≠ 0))])
            refine ⟨Event.kzalloc (decide (env t ≠ 0)) :: Event.kcalloc header.num_entries
                (decide (env (t ++ [Event.kzalloc (decide (env t ≠ 0))]) ≠ 0)) :: evs, ?_, ?_⟩
            · rw [h1]; simp
            · intro e he
              simp only [List.mem_cons] at he
              rcases he with he | he | he
              · subst he; rfl
              · subst he; rfl
              · exact h2 e he

theorem mem_internal_ne_ret (evs : List Event) (h : ∀ e ∈ evs, e.add_dev_internal = true)
    (r : Int) : Event.ret_intel_vsec_add_dev r ∉ evs := by
  intro hm
  have := h _ hm
  simp [Event.add_dev_internal] at this

theorem dvsec_body_spec (env : Env) (pdev : pci_dev) (quirks : Nat) :
    body_spec (dvsec_body env pdev quirks) (dvsec_reads pdev) (dvsec_calls pdev quirks) := by
  intro p t
  unfold dvsec_body dvsec_reads dvsec_calls dvsec_supported
  simp only
  by_cases hv : dvsec_vid pdev p = PCI_VENDOR_ID_INTEL
  · by_cases hr : dvsec_rev pdev p = 1
    · simp only [hv, hr, ne_eq, not_true_eq_false, if_false, decide_True, Bool.and_self, if_true]
      obtain ⟨evs, h1, h2⟩ := add_dev_trace env pdev (dvsec_header pdev p) quirks
        (t ++ [Event.pci_read_config_dword (p + PCI_DVSEC_HEADER1)
            (u32 (pdev.config_dword (p + PCI_DVSEC_HEADER1)))] ++
          [Event.pci_read_config_byte (p + INTEL_DVSEC_ENTRIES)
             (u8 (pdev.config_byte (p + INTEL_DVSEC_ENTRIES))),
           Event.pci_read_config_byte (p + INTEL_DVSEC_SIZE)
             (u8 (pdev.config_byte (p + INTEL_DVSEC_SIZE))),
           Event.pci_read_config_dword (p + INTEL_DVSEC_TABLE)
             (u32 (pdev.config_dword (p + INTEL_DVSEC_TABLE))),
           Event.pci_read_config_dword (p + PCI_DVSEC_HEADER2)
             (u32 (pdev.config_dword (p + PCI_DVSEC_HEADER2))),
           Event.call_intel_vsec_add_dev p (dvsec_header pdev p) quirks])
      rw [h1]
      have e1 := filterMap_internal Event.found (by intro e; cases e <;> simp [Event.add_dev_internal, Event.found]) evs h2
      have e2 := filterMap_internal Event.config_read (by intro e; cases e <;> simp [Event.add_dev_internal, Event.config_read]) evs h2
      have e3 := filterMap_internal Event.add_dev_call (by intro e; cases e <;> simp [Event.add_dev_internal, Event.add_dev_call]) evs h2
      have e4 := mem_internal_ne_ret evs h2 0
      refine ⟨_, by simp only [List.append_assoc]; rfl, ?_, ?_, ?_, ?_⟩
      · simp [List.filterMap_append, List.filterMap_cons, Event.found, e1]
      · simp [List.filterMap_append, List.filterMap_cons, Event.config_read, e2]
      · simp [List.filterMap_append, List.filterMap_cons, Event.add_dev_call, e3]
      · simp [e4, eq_comm]
    · simp only [hv, hr, ne_eq, not_true_eq_false, not_false_eq_true, if_false, if_true,
        decide_True, decide_False, Bool.and_false, Bool.false_eq_true]
      exact ⟨_, rfl, by simp [Event.found], by simp [Event.config_read],
        by simp [Event.add_dev_call], by simp⟩
  · simp only [hv, ne_eq, not_false_eq_true, if_true, decide_False, Bool.false_and,
      Bool.false_eq_true, if_false]
    exact ⟨_, rfl, by simp [Event.found], by simp [Event.config_read],
      by simp [Event.add_dev_call], by simp⟩

theorem vsec_body_spec (env : Env) (pdev : pci_dev) (quirks : Nat) :
    body_spec (vsec_body env pdev quirks) (vsec_reads pdev) (vsec_calls pdev quirks) := by
  intro p t
  unfold vsec_body vsec_reads vsec_calls vsec_supported
  simp only
  by_cases hr : vsec_rev pdev p = 1
  · simp only [hr, ne_eq, not_true_eq_false, if_false, decide_True, if_true]
    obtain ⟨evs, h1, h2⟩ := add_dev_trace env pdev (vsec_header pdev p) quirks
      (t ++ [Event.pci_read_config_dword (p + PCI_VNDR_HEADER)
          (u32 (pdev.config_dword (p + PCI_VNDR_HEADER)))] ++
        [Event.pci_read_config_byte (p + INTEL_DVSEC_ENTRIES)
           (u8 (pdev.config_byte (p + INTEL_DVSEC_ENTRIES))),
         Event.pci_read_config_byte (p + INTEL_DVSEC_SIZE)
           (u8 (pdev.config_byte (p + INTEL_DVSEC_SIZE))),
         Event.pci_read_config_dword (p + INTEL_DVSEC_TABLE)
           (u32 (pdev.config_dword (p + INTEL_DVSEC_TABLE))),
         Event.call_intel_vsec_add_dev p (vsec_header pdev p) quirks])
    rw [h1]
    have e1 := filterMap_internal Event.found (by intro e; cases e <;> simp [Event.add_dev_internal, Event.found]) evs h2
    have e2 := filterMap_internal Event.config_read (by intro e; cases e <;> simp [Event.add_dev_internal, Event.config_read]) evs h2
    have e3 := filterMap_internal Event.add_dev_call (by intro e; cases e <;> simp [Event.add_dev_internal, Event.add_dev_call]) evs h2
    have e4 := mem_internal_ne_ret evs h2 0
    refine ⟨_, by simp only [List.append_assoc]; rfl, ?_, ?_, ?_, ?_⟩
    · simp [List.filterMap_append, List.filterMap_cons, Event.found, e1]
    · simp [List.filterMap_append, List.filterMap_cons, Event.config_read, e2]
    · simp [List.filterMap_append, List.filterMap_cons, Event.add_dev_call, e3]
    · simp [e4, eq_comm]
  · simp only [hr, ne_eq, not_false_eq_true, if_true, decide_False, Bool.false_eq_true,
      if_false]
    exact ⟨_, rfl, by simp [Event.found], by simp [Event.config_read],
      by simp [Event.add_dev_call], by simp⟩

/-! ## Traces of whole scans -/

theorem scan_spec_props (cap : Nat) (body : Nat → List Event → Bool × List Event)
    (reads : Nat → List Nat) (calls : Nat → List (Nat × intel_vsec_header × Nat))
    (hb : body_spec body reads calls) :
    ∀ (ps : List Nat) (prev : Nat) (hd : Bool) (t : List Event),
      ∃ evs, (scan_spec cap body ps prev hd t).2 = t ++ evs ∧
        evs.filterMap Event.found = ps ++ [0] ∧
        evs.filterMap Event.config_read = ps.flatMap reads ∧
        evs.filterMap Event.add_dev_call = ps.flatMap calls ∧
        ((scan_spec cap body ps prev hd t).1 = true ↔
          (hd = true ∨ Event.ret_intel_vsec_add_dev 0 ∈ evs)) := by
  intro ps
  induction ps with
  | nil =>
    intro prev hd t
    exact ⟨_, rfl, by simp [Event.found], by simp [Event.config_read],
      by simp [Event.add_dev_call], by simp [scan_spec]⟩
  | cons p ps ih =>
    intro prev hd t
    obtain ⟨e1, hb1, hb2, hb3, hb4, hb5⟩ :=
      hb p (t ++ [Event.pci_find_next_ext_capability prev cap p])
    obtain ⟨e2, hs1, hs2, hs3, hs4, hs5⟩ := ih p
      (hd || (body p (t ++ [Event.pci_find_next_ext_capability prev cap p])).1)
      (body p (t ++ [Event.pci_find_next_ext_capability prev cap p])).2
    refine ⟨Event.pci_find_next_ext_capability prev cap p :: (e1 ++ e2), ?_, ?_, ?_, ?_, ?_⟩
    · simp only [scan_spec]
      rw [hs1, hb1]
      simp
    · simp [List.filterMap_cons, List.filterMap_append, Event.found, hb2, hs2]
    · simp [List.filterMap_cons, List.filterMap_append, Event.config_read, hb3, hs3]
    · simp [List.filterMap_cons, List.filterMap_append, Event.add_dev_call, hb4, hs4]
    · simp only [scan_spec]
      rw [hs5]
      simp only [Bool.or_eq_true, hb5, List.mem_cons, List.mem_append]
      constructor
      · rintro ((h | h) | h)
        · exact Or.inl h
        · exact Or.inr (Or.inr (Or.inl h))
        · exact Or.inr (Or.inr (Or.inr h))
      · rintro (h | h | h | h)
        · exact Or.inl (Or.inl h)
        · cases h
        · exact Or.inl (Or.inr h)
        · exact Or.inr h

theorem and_mask_31_3 (x : Nat) (hx : x < 2 ^ 32) : x &&& 0xFFFFFFF8 = 8 * (x / 8) := by
  apply Nat.eq_of_testBit_eq
  intro i
  have hm : (0xFFFFFFF8 : Nat) = (2 ^ 29 - 1) <<< 3 := by decide
  have h8 : 8 * (x / 8) = (x >>> 3) <<< 3 := by
    rw [Nat.shiftLeft_eq, Nat.shiftRight_eq_div_pow]; omega
  rw [Nat.testBit_and, hm, h8, Nat.testBit_shiftLeft, Nat.testBit_shiftLeft,
    Nat.testBit_two_pow_sub_one, Nat.testBit_shiftRight]
  by_cases h3 : 3 ≤ i
  · have e : 3 + (i - 3) = i := by omega
    rw [e]
    by_cases h32 : i < 32
    · have : i - 3 < 29 := by omega
      simp [h3, this]
    · have hxi : x.testBit i = false :=
        Nat.testBit_lt_two_pow (Nat.lt_of_lt_of_le hx (Nat.pow_le_pow_right (by decide) (by omega)))
      simp [hxi]
  · simp [h3]

theorem table_fields_spec (pdev : pci_dev) (pos : Nat) :
    (table_fields pdev pos).2.2.1 = u32 (pdev.config_dword (pos + 0xC)) &&& 0x7 ∧
    (table_fields pdev pos).2.2.1 < 8 ∧
    (table_fields pdev pos).2.2.2 = u32 (pdev.config_dword (pos + 0xC)) &&& 0xFFFFFFF8 ∧
    8 ∣ (table_fields pdev pos).2.2.2 ∧
    (table_fields pdev pos).2.2.1 + (table_fields pdev pos).2.2.2 =
      u32 (pdev.config_dword (pos + 0xC)) := by
  have hlt : u32 (pdev.config_dword (pos + 0xC)) < 2 ^ 32 := Nat.mod_lt _ (by decide)
  have g1 : GENMASK 2 0 = 7 := by decide
  have g2 : GENMASK 31 3 = 0xFFFFFFF8 := by decide
  have a1 : ∀ x : Nat, x &&& 7 = x % 8 := fun x => Nat.and_pow_two_sub_one_eq_mod x 3
  simp only [table_fields, INTEL_DVSEC_TABLE, INTEL_DVSEC_TABLE_BAR, INTEL_DVSEC_TABLE_OFFSET,
    g1, g2]
  generalize u32 (pdev.config_dword (pos + 0xC)) = x at hlt
  rw [and_mask_31_3 x hlt, a1]
  simp only [u8, u32]
  refine ⟨by omega, by omega, by omega, ?_, by omega⟩
  rw [Nat.mod_eq_of_lt (by omega)]
  exact Dvd.intro _ rfl

/-! ## Whole runs of the two walkers -/

theorem walk_dvsec_run (env : Env) (pdev : pci_dev) (quirks fuel : Nat) (t : List Event)
    (hwf : caps_wf pdev) (hfuel : pdev.ext_caps.length < fuel) :
    ∃ r evs, intel_vsec_walk_dvsec env pdev quirks fuel t = some (r, t ++ evs) ∧
      evs.filterMap Event.found = matching pdev PCI_EXT_CAP_ID_DVSEC ++ [0] ∧
      evs.filterMap Event.config_read =
        (matching pdev PCI_EXT_CAP_ID_DVSEC).flatMap (dvsec_reads pdev) ∧
      evs.filterMap Event.add_dev_call =
        (matching pdev PCI_EXT_CAP_ID_DVSEC).flatMap (dvsec_calls pdev quirks) ∧
      (r = true ↔ Event.ret_intel_vsec_add_dev 0 ∈ evs) := by
  have hlen := matching_length_le pdev PCI_EXT_CAP_ID_DVSEC
  obtain ⟨evs, h1, h2, h3, h4, h5⟩ := scan_spec_props PCI_EXT_CAP_ID_DVSEC _ _ _
    (dvsec_body_spec env pdev quirks) (matching pdev PCI_EXT_CAP_ID_DVSEC) 0 false t
  refine ⟨(scan_spec PCI_EXT_CAP_ID_DVSEC (dvsec_body env pdev quirks)
    (matching pdev PCI_EXT_CAP_ID_DVSEC) 0 false t).1, evs, ?_, h2, h3, h4, ?_⟩
  · unfold intel_vsec_walk_dvsec
    rw [dvsec_loop_eq_scan, scan_eq_spec pdev _ _ hwf fuel (by omega), ← h1]
  · simpa using h5

theorem walk_vsec_run (env : Env) (pdev : pci_dev) (quirks fuel : Nat) (t : List Event)
    (hwf : caps_wf pdev) (hfuel : pdev.ext_caps.length < fuel) :
    ∃ r evs, intel_vsec_walk_vsec env pdev quirks fuel t = some (r, t ++ evs) ∧
      evs.filterMap Event.found = matching pdev PCI_EXT_CAP_ID_VNDR ++ [0] ∧
      evs.filterMap Event.config_read =
        (matching pdev PCI_EXT_CAP_ID_VNDR).flatMap (vsec_reads pdev) ∧
      evs.filterMap Event.add_dev_call =
        (matching pdev PCI_EXT_CAP_ID_VNDR).flatMap (vsec_calls pdev quirks) ∧
      (r = true ↔ Event.ret_intel_vsec_add_dev 0 ∈ evs) := by
  have hlen := matching_length_le pdev PCI_EXT_CAP_ID_VNDR
  obtain ⟨evs, h1, h2, h3, h4, h5⟩ := scan_spec_props PCI_EXT_CAP_ID_VNDR _ _ _
    (vsec_body_spec env pdev quirks) (matching pdev PCI_EXT_CAP_ID_VNDR) 0 false t
  refine ⟨(scan_spec PCI_EXT_CAP_ID_VNDR (vsec_body env pdev quirks)
    (matching pdev PCI_EXT_CAP_ID_VNDR) 0 false t).1, evs, ?_, h2, h3, h4, ?_⟩
  · unfold intel_vsec_walk_vsec
    rw [vsec_loop_eq_scan, scan_eq_spec pdev _ _ hwf fuel (by omega), ← h1]
  · simpa using h5

theorem flatMap_dvsec_calls (pdev : pci_dev) (quirks : Nat) (ps : List Nat) :
    ps.flatMap (dvsec_calls pdev quirks) =
      (ps.filter (dvsec_supported pdev)).map (fun p => (p, dvsec_header pdev p, quirks)) := by
  induction ps with
  | nil => rfl
  | cons p ps ih =>
    rw [List.flatMap_cons, ih]
    unfold dvsec_calls
    cases h : dvsec_supported pdev p <;> simp [List.filter_cons, h]

theorem flatMap_vsec_calls (pdev : pci_dev) (quirks : Nat) (ps : List Nat) :
    ps.flatMap (vsec_calls pdev quirks) =
      (ps.filter (vsec_supported pdev)).map (fun p => (p, vsec_header pdev p, quirks)) := by
  induction ps with
  | nil => rfl
  | cons p ps ih =>
    rw [List.flatMap_cons, ih]
    unfold vsec_calls
    cases h : vsec_supported pdev p <;> simp [List.filter_cons, h]

theorem scan_ext (pdev : pci_dev) (cap : Nat) (body : Nat → List Event → Bool × List Event)
    (reads : Nat → List Nat) (calls : Nat → List (Nat × intel_vsec_header × Nat))
    (hb : body_spec body reads calls) :
    ∀ (fuel prev : Nat) (hd : Bool) (t : List Event) (r : Bool) (t' : List Event),
      scan pdev cap body fuel prev hd t = some (r, t') → ∃ evs, t' = t ++ evs := by
  intro fuel
  induction fuel with
  | zero => intro prev hd t r t' h; simp [scan] at h
  | succ fuel ih =>
    intro prev hd t r t' h
    unfold scan at h
    simp only at h
    split at h
    · simp only [Option.some.injEq, Prod.mk.injEq] at h
      exact ⟨_, h.2.symm⟩
    · obtain ⟨e1, hb1, _⟩ := hb (pci_find_next_ext_capability pdev prev cap)
        (t ++ [Event.pci_find_next_ext_capability prev cap
          (pci_find_next_ext_capability pdev prev cap)])
      obtain ⟨e2, he2⟩ := ih _ _ _ _ _ h
      rw [hb1] at he2
      exact ⟨_, by rw [he2]; simp only [List.append_assoc]; rfl⟩

/-- Safety of a scan, for any fuel and any capability list: every recorded call of
`intel_vsec_add_dev` is one of the calls the body makes for some position. -/
theorem scan_calls (pdev : pci_dev) (cap : Nat) (body : Nat → List Event → Bool × List Event)
    (reads : Nat → List Nat) (calls : Nat → List (Nat × intel_vsec_header × Nat))
    (hb : body_spec body reads calls) :
    ∀ (fuel prev : Nat) (hd : Bool) (t : List Event) (r : Bool) (evs : List Event),
      scan pdev cap body fuel prev hd t = some (r, t ++ evs) →
      ∀ c ∈ evs.filterMap Event.add_dev_call, ∃ p, c ∈ calls p := by
  intro fuel
  induction fuel with
  | zero => intro prev hd t r evs h; simp [scan] at h
  | succ fuel ih =>
    intro prev hd t r evs h c hc
    unfold scan at h
    simp only at h
    split at h
    · simp only [Option.some.injEq, Prod.mk.injEq, List.append_cancel_left_eq] at h
      rw [← h.2] at hc
      simp [Event.add_dev_call] at hc
    · obtain ⟨e1, hb1, _, _, hb4, _⟩ := hb (pci_find_next_ext_capability pdev prev cap)
        (t ++ [Event.pci_find_next_ext_capability prev cap
          (pci_find_next_ext_capability pdev prev cap)])
      rw [hb1] at h
      obtain ⟨e2, he2⟩ := scan_ext pdev cap body reads calls hb _ _ _ _ _ _ h
      have hevs : evs = [Event.pci_find_next_ext_capability prev cap
          (pci_find_next_ext_capability pdev prev cap)] ++ e1 ++ e2 := by
        have : t ++ evs = t ++ ([Event.pci_find_next_ext_capability prev cap
          (pci_find_next_ext_capability pdev prev cap)] ++ e1 ++ e2) := by
          rw [he2]; simp only [List.append_assoc]
        exact List.append_cancel_left this
      rw [he2] at h
      rw [hevs] at hc
      simp only [List.filterMap_append, List.mem_append] at hc
      rcases hc with (hc | hc) | hc
      · simp [Event.add_dev_call] at hc
      · rw [hb4] at hc
        exact ⟨_, hc⟩
      · exact ih _ _ _ _ _ h c hc

/-! ## The walkers: main results -/

/-- C7: only revision 1 is supported.  On a well-formed capability list both walkers run to
the end of the list (every capability with the searched id is looked up, then 0), and the
calls of `intel_vsec_add_dev` they make are, in list order, exactly one per capability of
revision 1 (for DVSEC: of revision 1 and Intel's), with the header decoded at that
capability; so no call is made for a capability of another revision, and such a
capability does not keep later ones from being processed. -/
theorem intel_vsec_walk_only_revision_1 (env : Env) (pdev : pci_dev) (quirks fuel : Nat)
    (t : List Event) (hwf : caps_wf pdev) (hfuel : pdev.ext_caps.length < fuel) :
    (∃ r evs, intel_vsec_walk_dvsec env pdev quirks fuel t = some (r, t ++ evs) ∧
      evs.filterMap Event.found = matching pdev PCI_EXT_CAP_ID_DVSEC ++ [0] ∧
      evs.filterMap Event.add_dev_call =
        ((matching pdev PCI_EXT_CAP_ID_DVSEC).filter
          (fun p => decide (dvsec_vid pdev p = PCI_VENDOR_ID_INTEL) &&
            decide (dvsec_rev pdev p = 1))).map
          (fun p => (p, dvsec_header pdev p, quirks)) ∧
      ∀ c ∈ evs.filterMap Event.add_dev_call, c.2.1.rev = 1 ∧ dvsec_rev pdev c.1 = 1) ∧
    (∃ r evs, intel_vsec_walk_vsec env pdev quirks fuel t = some (r, t ++ evs) ∧
      evs.filterMap Event.found = matching pdev PCI_EXT_CAP_ID_VNDR ++ [0] ∧
      evs.filterMap Event.add_dev_call =
        ((matching pdev PCI_EXT_CAP_ID_VNDR).filter
          (fun p => decide (vsec_rev pdev p = 1))).map
          (fun p => (p, vsec_header pdev p, quirks)) ∧
      ∀ c ∈ evs.filterMap Event.add_dev_call, c.2.1.rev = 1 ∧ vsec_rev pdev c.1 = 1) := by
  constructor
  · obtain ⟨r, evs, h1, h2, _, h4, _⟩ := walk_dvsec_run env pdev quirks fuel t hwf hfuel
    rw [flatMap_dvsec_calls] at h4
    refine ⟨r, evs, h1, h2, h4, ?_⟩
    intro c hc
    rw [h4] at hc
    obtain ⟨p, hp, rfl⟩ := List.mem_map.1 hc
    have hs := (List.mem_filter.1 hp).2
    simp only [dvsec_supported, Bool.and_eq_true, decide_eq_true_eq] at hs
    exact ⟨hs.2, hs.2⟩
  · obtain ⟨r, evs, h1, h2, _, h4, _⟩ := walk_vsec_run env pdev quirks fuel t hwf hfuel
    rw [flatMap_vsec_calls] at h4
    refine ⟨r, evs, h1, h2, h4, ?_⟩
    intro c hc
    rw [h4] at hc
    obtain ⟨p, hp, rfl⟩ := List.mem_map.1 hc
    have hs := (List.mem_filter.1 hp).2
    simp only [vsec_supported, decide_eq_true_eq] at hs
    exact ⟨hs, hs⟩

/-- C8: `intel_vsec_walk_dvsec` skips DVSECs that are not Intel's.  Locally: when the next
DVSEC found is at `p` and its HEADER1 vendor id is not 0x8086, the iteration consists of the
lookup and the single read of HEADER1 at `p + 4`, leaves `have_devices` as it was and the
loop goes on from `p`.  Over a whole run on a well-formed list: the configuration reads are
the per-capability reads in list order, a capability of another vendor contributing only
`p + 4` and no call of `intel_vsec_add_dev`, and every call made is for an Intel DVSEC. -/
theorem intel_vsec_walk_dvsec_skips_other_vendors (env : Env) (pdev : pci_dev)
    (quirks : Nat) (t : List Event) :
    (∀ (fuel prev : Nat) (have_devices : Bool),
      pci_find_next_ext_capability pdev prev PCI_EXT_CAP_ID_DVSEC ≠ 0 →
      dvsec_vid pdev (pci_find_next_ext_capability pdev prev PCI_EXT_CAP_ID_DVSEC) ≠ 0x8086 →
      intel_vsec_walk_dvsec_loop env pdev quirks (fuel + 1) prev have_devices t =
        intel_vsec_walk_dvsec_loop env pdev quirks fuel
          (pci_find_next_ext_capability pdev prev PCI_EXT_CAP_ID_DVSEC) have_devices
          (t ++ [Event.pci_find_next_ext_capability prev PCI_EXT_CAP_ID_DVSEC
                   (pci_find_next_ext_capability pdev prev PCI_EXT_CAP_ID_DVSEC),
                 Event.pci_read_config_dword
                   (pci_find_next_ext_capability pdev prev PCI_EXT_CAP_ID_DVSEC + 4)
                   (u32 (pdev.config_dword
                     (pci_find_next_ext_capability pdev prev PCI_EXT_CAP_ID_DVSEC + 4)))])) ∧
    (∀ fuel : Nat, caps_wf pdev → pdev.ext_caps.length < fuel →
      ∃ r evs, intel_vsec_walk_dvsec env pdev quirks fuel t = some (r, t ++ evs) ∧
        evs.filterMap Event.config_read =
          (matching pdev PCI_EXT_CAP_ID_DVSEC).flatMap (dvsec_reads pdev) ∧
        evs.filterMap Event.add_dev_call =
          (matching pdev PCI_EXT_CAP_ID_DVSEC).flatMap (dvsec_calls pdev quirks) ∧
        (∀ p, dvsec_vid pdev p ≠ 0x8086 →
          dvsec_reads pdev p = [p + 4] ∧ dvsec_calls pdev quirks p = []) ∧
        ∀ c ∈ evs.filterMap Event.add_dev_call, dvsec_vid pdev c.1 = 0x8086) := by
  constructor
  · intro fuel prev hd hpos hvid
    have hvid' := hvid
    unfold dvsec_vid PCI_DVSEC_HEADER1 at hvid'
    conv => lhs; unfold intel_vsec_walk_dvsec_loop
    simp only [hpos, if_false, PCI_VENDOR_ID_INTEL, PCI_DVSEC_HEADER1, ne_eq, hvid',
      not_false_eq_true, if_true, List.append_assoc, List.singleton_append]
  · intro fuel hwf hfuel
    obtain ⟨r, evs, h1, _, h3, h4, _⟩ := walk_dvsec_run env pdev quirks fuel t hwf hfuel
    refine ⟨r, evs, h1, h3, h4, ?_, ?_⟩
    · intro p hp
      have hp' : dvsec_vid pdev p ≠ PCI_VENDOR_ID_INTEL := hp
      simp [dvsec_reads, dvsec_calls, dvsec_supported, hp', PCI_DVSEC_HEADER1]
    · intro c hc
      rw [h4, flatMap_dvsec_calls] at hc
      obtain ⟨p, hp, rfl⟩ := List.mem_map.1 hc
      have hs := (List.mem_filter.1 hp).2
      simp only [dvsec_supported, Bool.and_eq_true, decide_eq_true_eq] at hs
      exact hs.1

/-- C9: the capability walker is a bounded linear scan.  On a well-formed capability list
(distinct non-zero positions, so that `pci_find_next_ext_capability` yields each matching
capability after the given position once and then 0), with more fuel than the list is
long, `intel_vsec_walk_dvsec` and `intel_vsec_walk_vsec` terminate; the lookups return the
matching capabilities one by one in list order, each once, followed by the final 0; and the
result is `true` exactly when some call of `intel_vsec_add_dev` during the run returned 0. -/
theorem intel_vsec_walk_bounded_scan (env : Env) (pdev : pci_dev) (quirks fuel : Nat)
    (t : List Event) (hwf : caps_wf pdev) (hfuel : pdev.ext_caps.length < fuel) :
    (∃ r evs, intel_vsec_walk_dvsec env pdev quirks fuel t = some (r, t ++ evs) ∧
      evs.filterMap Event.found = matching pdev PCI_EXT_CAP_ID_DVSEC ++ [0] ∧
      (matching pdev PCI_EXT_CAP_ID_DVSEC).Nodup ∧
      (∀ p ∈ matching pdev PCI_EXT_CAP_ID_DVSEC, p ≠ 0) ∧
      (r = true ↔ Event.ret_intel_vsec_add_dev 0 ∈ evs)) ∧
    (∃ r evs, intel_vsec_walk_vsec env pdev quirks fuel t = some (r, t ++ evs) ∧
      evs.filterMap Event.found = matching pdev PCI_EXT_CAP_ID_VNDR ++ [0] ∧
      (matching pdev PCI_EXT_CAP_ID_VNDR).Nodup ∧
      (∀ p ∈ matching pdev PCI_EXT_CAP_ID_VNDR, p ≠ 0) ∧
      (r = true ↔ Event.ret_intel_vsec_add_dev 0 ∈ evs)) := by
  constructor
  · obtain ⟨r, evs, h1, h2, _, _, h5⟩ := walk_dvsec_run env pdev quirks fuel t hwf hfuel
    exact ⟨r, evs, h1, h2, matching_nodup pdev _ hwf, matching_ne_zero pdev _ hwf, h5⟩
  · obtain ⟨r, evs, h1, h2, _, _, h5⟩ := walk_vsec_run env pdev quirks fuel t hwf hfuel
    exact ⟨r, evs, h1, h2, matching_nodup pdev _ hwf, matching_ne_zero pdev _ hwf, h5⟩

theorem add_dev_call_eq_some (e : Event) (p : Nat) (h : intel_vsec_header) (q : Nat)
    (he : e.add_dev_call = some (p, h, q)) : e = Event.call_intel_vsec_add_dev p h q := by
  cases e <;> simp [Event.add_dev_call] at he
  obtain ⟨rfl, rfl, rfl⟩ := he
  rfl

theorem mem_dvsec_calls (pdev : pci_dev) (quirks p pos : Nat) (h : intel_vsec_header) (q : Nat)
    (hm : (pos, h, q) ∈ dvsec_calls pdev quirks p) :
    h = dvsec_header pdev pos ∧ q = quirks := by
  unfold dvsec_calls at hm
  split at hm
  · simp only [List.mem_singleton, Prod.mk.injEq] at hm
    obtain ⟨rfl, rfl, rfl⟩ := hm
    exact ⟨rfl, rfl⟩
  · simp at hm

theorem mem_vsec_calls (pdev : pci_dev) (quirks p pos : Nat) (h : intel_vsec_header) (q : Nat)
    (hm : (pos, h, q) ∈ vsec_calls pdev quirks p) :
    h = vsec_header pdev pos ∧ q = quirks := by
  unfold vsec_calls at hm
  split at hm
  · simp only [List.mem_singleton, Prod.mk.injEq] at hm
    obtain ⟨rfl, rfl, rfl⟩ := hm
    exact ⟨rfl, rfl⟩
  · simp at hm

/-- A whole run of `intel_vsec_walk_dvsec` on a well-formed list calls `intel_vsec_add_dev`
for every supported DVSEC, with the header decoded there and with no other header. -/
theorem walk_dvsec_calls_at (env : Env) (pdev : pci_dev) (quirks fuel : Nat) (t : List Event)
    (hwf : caps_wf pdev) (hfuel : pdev.ext_caps.length < fuel) :
    ∃ r evs, intel_vsec_walk_dvsec env pdev quirks fuel t = some (r, t ++ evs) ∧
      (∀ pos, pos ∈ matching pdev PCI_EXT_CAP_ID_DVSEC → dvsec_supported pdev pos = true →
        Event.call_intel_vsec_add_dev pos (dvsec_header pdev pos) quirks ∈ evs) ∧
      (∀ pos h q, Event.call_intel_vsec_add_dev pos h q ∈ evs →
        h = dvsec_header pdev pos ∧ q = quirks) := by
  obtain ⟨r, evs, h1, _, _, h4, _⟩ := walk_dvsec_run env pdev quirks fuel t hwf hfuel
  refine ⟨r, evs, h1, ?_, ?_⟩
  · intro pos hpos hsup
    have hm : (pos, dvsec_header pdev pos, quirks) ∈ evs.filterMap Event.add_dev_call := by
      rw [h4, List.mem_flatMap]
      exact ⟨pos, hpos, by simp [dvsec_calls, hsup]⟩
    obtain ⟨e, he, hee⟩ := List.mem_filterMap.1 hm
    rw [add_dev_call_eq_some e _ _ _ hee] at he
    exact he
  · intro pos h q hc
    have hm : (pos, h, q) ∈ evs.filterMap Event.add_dev_call :=
      List.mem_filterMap.2 ⟨_, hc, rfl⟩
    rw [h4, List.mem_flatMap] at hm
    obtain ⟨p, _, hp⟩ := hm
    exact mem_dvsec_calls pdev quirks p pos h q hp

/-- The same for `intel_vsec_walk_vsec`. -/
theorem walk_vsec_calls_at (env : Env) (pdev : pci_dev) (quirks fuel : Nat) (t : List Event)
    (hwf : caps_wf pdev) (hfuel : pdev.ext_caps.length < fuel) :
    ∃ r evs, intel_vsec_walk_vsec env pdev quirks fuel t = some (r, t ++ evs) ∧
      (∀ pos, pos ∈ matching pdev PCI_EXT_CAP_ID_VNDR → vsec_supported pdev pos = true →
        Event.call_intel_vsec_add_dev pos (vsec_header pdev pos) quirks ∈ evs) ∧
      (∀ pos h q, Event.call_intel_vsec_add_dev pos h q ∈ evs →
        h = vsec_header pdev pos ∧ q = quirks) := by
  obtain ⟨r, evs, h1, _, _, h4, _⟩ := walk_vsec_run env pdev quirks fuel t hwf hfuel
  refine ⟨r, evs, h1, ?_, ?_⟩
  · intro pos hpos hsup
    have hm : (pos, vsec_header pdev pos, quirks) ∈ evs.filterMap Event.add_dev_call := by
      rw [h4, List.mem_flatMap]
      exact ⟨pos, hpos, by simp [vsec_calls, hsup]⟩
    obtain ⟨e, he, hee⟩ := List.mem_filterMap.1 hm
    rw [add_dev_call_eq_some e _ _ _ hee] at he
    exact he
  · intro pos h q hc
    have hm : (pos, h, q) ∈ evs.filterMap Event.add_dev_call :=
      List.mem_filterMap.2 ⟨_, hc, rfl⟩
    rw [h4, List.mem_flatMap] at hm
    obtain ⟨p, _, hp⟩ := hm
    exact mem_vsec_calls pdev quirks p pos h q hp

/-- C10: entry count, entry size and table location are decoded alike for VSEC and DVSEC.
Let `pos1` be an Intel DVSEC of revision 1 of a device and `pos2` a VSEC of revision 1 of a
device, both capability lists well formed, and let the configuration space hold the same
bytes at offsets 0xA and 0xB and the same dword at 0xC of the two capabilities.  Then, with
more fuel than the lists are long, `intel_vsec_walk_dvsec` and `intel_vsec_walk_vsec` both
return, the first calls `intel_vsec_add_dev` for `pos1` with a header `h1` and the second
for `pos2` with a header `h2` (and with no other header for these positions), and `h1` and
`h2` agree on `num_entries`, `entry_size`, `tbir` and `offset`; moreover
`tbir = table & 0x7 < 8`, `offset = table & 0xFFFFFFF8` is a multiple of 8, and
`tbir + offset = table`. -/
theorem intel_vsec_walk_same_table_decoding (env1 env2 : Env) (pdev1 pdev2 : pci_dev)
    (quirks1 quirks2 fuel1 fuel2 : Nat) (t1 t2 : List Event) (pos1 pos2 : Nat)
    (hwf1 : caps_wf pdev1) (hwf2 : caps_wf pdev2)
    (hfuel1 : pdev1.ext_caps.length < fuel1) (hfuel2 : pdev2.ext_caps.length < fuel2)
    (hcap1 : pos1 ∈ matching pdev1 PCI_EXT_CAP_ID_DVSEC)
    (hvid1 : dvsec_vid pdev1 pos1 = PCI_VENDOR_ID_INTEL) (hrev1 : dvsec_rev pdev1 pos1 = 1)
    (hcap2 : pos2 ∈ matching pdev2 PCI_EXT_CAP_ID_VNDR) (hrev2 : vsec_rev pdev2 pos2 = 1)
    (hA : u8 (pdev1.config_byte (pos1 + 0xA)) = u8 (pdev2.config_byte (pos2 + 0xA)))
    (hB : u8 (pdev1.config_byte (pos1 + 0xB)) = u8 (pdev2.config_byte (pos2 + 0xB)))
    (hC : u32 (pdev1.config_dword (pos1 + 0xC)) = u32 (pdev2.config_dword (pos2 + 0xC))) :
    ∃ (r1 : Bool) (evs1 : List Event) (r2 : Bool) (evs2 : List Event)
      (h1 h2 : intel_vsec_header),
      intel_vsec_walk_dvsec env1 pdev1 quirks1 fuel1 t1 = some (r1, t1 ++ evs1) ∧
      intel_vsec_walk_vsec env2 pdev2 quirks2 fuel2 t2 = some (r2, t2 ++ evs2) ∧
      Event.call_intel_vsec_add_dev pos1 h1 quirks1 ∈ evs1 ∧
      Event.call_intel_vsec_add_dev pos2 h2 quirks2 ∈ evs2 ∧
      (∀ h q, Event.call_intel_vsec_add_dev pos1 h q ∈ evs1 → h = h1) ∧
      (∀ h q, Event.call_intel_vsec_add_dev pos2 h q ∈ evs2 → h = h2) ∧
      (h1.num_entries = h2.num_entries ∧ h1.entry_size = h2.entry_size ∧
        h1.tbir = h2.tbir ∧ h1.offset = h2.offset) ∧
      h1.num_entries = u8 (pdev1.config_byte (pos1 + 0xA)) ∧
      h1.entry_size = u8 (pdev1.config_byte (pos1 + 0xB)) ∧
      h1.tbir = u32 (pdev1.config_dword (pos1 + 0xC)) &&& 0x7 ∧
      h1.tbir < 8 ∧
      h1.offset = u32 (pdev1.config_dword (pos1 + 0xC)) &&& 0xFFFFFFF8 ∧
      8 ∣ h1.offset ∧
      h1.tbir + h1.offset = u32 (pdev1.config_dword (pos1 + 0xC)) := by
  obtain ⟨r1, evs1, hrun1, hc1, hu1⟩ :=
    walk_dvsec_calls_at env1 pdev1 quirks1 fuel1 t1 hwf1 hfuel1
  obtain ⟨r2, evs2, hrun2, hc2, hu2⟩ :=
    walk_vsec_calls_at env2 pdev2 quirks2 fuel2 t2 hwf2 hfuel2
  have hs1 : dvsec_supported pdev1 pos1 = true := by simp [dvsec_supported, hvid1, hrev1]
  have hs2 : vsec_supported pdev2 pos2 = true := by simp [vsec_supported, hrev2]
  obtain ⟨s1, s2, s3, s4, s5⟩ := table_fields_spec pdev1 pos1
  have tf : table_fields pdev1 pos1 = table_fields pdev2 pos2 := by
    have hA' := hA
    have hB' := hB
    have hC' := hC
    simp only [table_fields, INTEL_DVSEC_ENTRIES, INTEL_DVSEC_SIZE, INTEL_DVSEC_TABLE, hA', hB',
      hC']
  refine ⟨r1, evs1, r2, evs2, dvsec_header pdev1 pos1, vsec_header pdev2 pos2, hrun1, hrun2,
    hc1 pos1 hcap1 hs1, hc2 pos2 hcap2 hs2, fun h q hc => (hu1 pos1 h q hc).1,
    fun h q hc => (hu2 pos2 h q hc).1, ⟨?_, ?_, ?_, ?_⟩, rfl, rfl, s1, s2, s3, s4, s5⟩ <;>
    simp only [dvsec_header, vsec_header, tf]

theorem demo_dev_wf : caps_wf demo_dev := by
  unfold caps_wf demo_dev
  decide

theorem intel_vsec_add_dev_resources_witness :
    (intel_vsec_add_dev demo_env demo_dev demo_header 4 []).ret = 0 ∧
    (intel_vsec_add_dev demo_env demo_dev demo_header 4 []).dev = some demo_device ∧
    (∃ d, (intel_vsec_add_dev demo_env demo_dev demo_header 4 []).dev = some d) ∧
    demo_device.resource[1]? =
      some { start := demo_dev.resource_start demo_header.tbir + table_off demo_header 4 +
               1 * (demo_header.entry_size * 4),
             end_ := demo_dev.resource_start demo_header.tbir + table_off demo_header 4 +
               1 * (demo_header.entry_size * 4) + demo_header.entry_size * 4 - 1,
             flags := IORESOURCE_MEM } :=
  ⟨by decide, by decide,
   (intel_vsec_add_dev_resources demo_env demo_dev demo_header 4 []).1 (by decide),
   ((intel_vsec_add_dev_resources demo_env demo_dev demo_header 4 []).2 demo_device
     (by decide)).2.2.2 (by decide) 1 (by decide)⟩

theorem intel_vsec_add_dev_policy_witness :
    intel_vsec_add_dev demo_env demo_dev { demo_header with id := 3 } 1 [] =
      { ret := -22, header := { demo_header with id := 3 }, dev := none, trace := [] } :=
  (intel_vsec_add_dev_policy demo_env demo_dev { demo_header with id := 3 } 1 []).1
    (Or.inr (Or.inl ⟨rfl, by decide⟩))

theorem intel_vsec_add_dev_zero_entries_witness :
    intel_vsec_add_dev demo_env demo_dev { demo_header with entry_size := 0 } 4 [] =
      { ret := -22, header := { demo_header with entry_size := 0 }, dev := none, trace := [] } :=
  intel_vsec_add_dev_zero_entries demo_env demo_dev { demo_header with entry_size := 0 } 4 []
    (Or.inr rfl)

theorem intel_vsec_walk_only_revision_1_witness :
    caps_wf demo_dev ∧ demo_dev.ext_caps.length < 5 ∧
    (∃ r evs, intel_vsec_walk_dvsec demo_env demo_dev 0 5 [] = some (r, [] ++ evs) ∧
      evs.filterMap Event.add_dev_call = [(0x100, dvsec_header demo_dev 0x100, 0)]) ∧
    (∃ r evs, intel_vsec_walk_vsec demo_env demo_dev 0 5 [] = some (r, [] ++ evs) ∧
      evs.filterMap Event.add_dev_call = [(0x200, vsec_header demo_dev 0x200, 0)]) :=
  ⟨demo_dev_wf, by decide,
   (intel_vsec_walk_only_revision_1 demo_env demo_dev 0 5 [] demo_dev_wf (by decide)).1.elim
     fun r h => h.elim fun evs h => ⟨r, evs, h.1, h.2.2.1.trans (by decide)⟩,
   (intel_vsec_walk_only_revision_1 demo_env demo_dev 0 5 [] demo_dev_wf (by decide)).2.elim
     fun r h => h.elim fun evs h => ⟨r, evs, h.1, h.2.2.1.trans (by decide)⟩⟩

theorem intel_vsec_walk_dvsec_skips_other_vendors_witness :
    pci_find_next_ext_capability demo_dev 0x100 PCI_EXT_CAP_ID_DVSEC = 0x300 ∧
    dvsec_vid demo_dev 0x300 = 0x1234 ∧
    intel_vsec_walk_dvsec_loop demo_env demo_dev 0 3 0x100 true [] =
      intel_vsec_walk_dvsec_loop demo_env demo_dev 0 2 0x300 true
        [Event.pci_find_next_ext_capability 0x100 PCI_EXT_CAP_ID_DVSEC 0x300,
         Event.pci_read_config_dword 0x304 0x01011234] ∧
    (∃ r evs, intel_vsec_walk_dvsec demo_env demo_dev 0 5 [] = some (r, [] ++ evs) ∧
      evs.filterMap Event.config_read =
        [0x104, 0x10A, 0x10B, 0x10C, 0x108, 0x304, 0x404]) :=
  ⟨by decide, by decide,
   (intel_vsec_walk_dvsec_skips_other_vendors demo_env demo_dev 0 []).1 2 0x100 true
     (by decide) (by decide),
   ((intel_vsec_walk_dvsec_skips_other_vendors demo_env demo_dev 0 []).2 5 demo_dev_wf
     (by decide)).elim
     fun r h => h.elim fun evs h => ⟨r, evs, h.1, h.2.1.trans (by decide)⟩⟩

theorem intel_vsec_walk_bounded_scan_witness :
    caps_wf demo_dev ∧ demo_dev.ext_caps.length < 5 ∧
    (∃ r evs, intel_vsec_walk_dvsec demo_env demo_dev 0 5 [] = some (r, [] ++ evs) ∧
      evs.filterMap Event.found = [0x100, 0x300, 0x400, 0] ∧
      (r = true ↔ Event.ret_intel_vsec_add_dev 0 ∈ evs)) ∧
    (∃ r evs, intel_vsec_walk_vsec demo_env demo_dev 0 5 [] = some (r, [] ++ evs) ∧
      evs.filterMap Event.found = [0x200, 0] ∧
      (r = true ↔ Event.ret_intel_vsec_add_dev 0 ∈ evs)) :=
  ⟨demo_dev_wf, by decide,
   (intel_vsec_walk_bounded_scan demo_env demo_dev 0 5 [] demo_dev_wf (by decide)).1.elim
     fun r h => h.elim fun evs h => ⟨r, evs, h.1, h.2.1.trans (by decide), h.2.2.2.2⟩,
   (intel_vsec_walk_bounded_scan demo_env demo_dev 0 5 [] demo_dev_wf (by decide)).2.elim
     fun r h => h.elim fun evs h => ⟨r, evs, h.1, h.2.1.trans (by decide), h.2.2.2.2⟩⟩

theorem intel_vsec_walk_same_table_decoding_witness :
    intel_vsec_walk_dvsec demo_env demo_dev 0 5 [] = some (true, [] ++ demo_dvsec_events) ∧
    intel_vsec_walk_vsec demo_env demo_dev 0 5 [] = some (true, [] ++ demo_vsec_events) ∧
    Event.call_intel_vsec_add_dev 0x100 (dvsec_header demo_dev 0x100) 0 ∈ demo_dvsec_events ∧
    Event.call_intel_vsec_add_dev 0x200 (vsec_header demo_dev 0x200) 0 ∈ demo_vsec_events ∧
    (dvsec_header demo_dev 0x100).offset = 0x2000 ∧
    (vsec_header demo_dev 0x200).offset = 0x2000 ∧
    ∃ (r1 : Bool) (evs1 : List Event) (r2 : Bool) (evs2 : List Event)
      (h1 h2 : intel_vsec_header),
      intel_vsec_walk_dvsec demo_env demo_dev 0 5 [] = some (r1, [] ++ evs1) ∧
      intel_vsec_walk_vsec demo_env demo_dev 0 5 [] = some (r2, [] ++ evs2) ∧
      Event.call_intel_vsec_add_dev 0x100 h1 0 ∈ evs1 ∧
      Event.call_intel_vsec_add_dev 0x200 h2 0 ∈ evs2 ∧
      (h1.num_entries = h2.num_entries ∧ h1.entry_size = h2.entry_size ∧
        h1.tbir = h2.tbir ∧ h1.offset = h2.offset) :=
  ⟨by decide, by decide, by decide, by decide, by decide, by decide,
   (intel_vsec_walk_same_table_decoding demo_env demo_env demo_dev demo_dev 0 0 5 5 [] []
     0x100 0x200 demo_dev_wf demo_dev_wf (by decide) (by decide) (by decide) (by decide)
     (by decide) (by decide) (by decide) (by decide) (by decide) (by decide)).elim
     fun r1 h => h.elim fun evs1 h => h.elim fun r2 h => h.elim fun evs2 h =>
       h.elim fun h1 h => h.elim fun h2 h =>
         ⟨r1, evs1, r2, evs2, h1, h2, h.1, h.2.1, h.2.2.1, h.2.2.2.1, h.2.2.2.2.2.2.1⟩⟩

/-! ## The tablet quirk driver -/

/-- C11: the tablet driver is DMI based.  If no entry of the id table matches the running
system, `dmi_first_match` finds nothing and `x86_android_tablet_init` returns
`-ENODEV = -19` with the trace and the file-scope variables as they were: no GPIO lookup table
added, no module requested, no init hook called, no I2C client, platform device or serdev
instantiated.  This holds for every table, `x86_android_tablet_ids` included. -/
theorem x86_android_tablet_init_no_match (env : TabletEnv)
    (dmi_ident : dmi_field → Option String) (ids : List dmi_system_id) (g : tablet_globals)
    (t : List TabletEvent) (h : ∀ id ∈ ids, dmi_matches dmi_ident id = false) :
    dmi_first_match dmi_ident ids = none ∧
    x86_android_tablet_init env dmi_ident ids g t = (-19, g, t) := by
  have hn : dmi_first_match dmi_ident ids = none := by
    unfold dmi_first_match
    rw [List.find?_eq_none]
    intro id hid
    simp [h id hid]
  refine ⟨hn, ?_⟩
  unfold x86_android_tablet_init
  rw [hn]
  rfl

theorem x86_android_tablet_init_no_match_witness :
    (∀ id ∈ x86_android_tablet_ids, dmi_matches demo_dmi_other id = false) ∧
    dmi_first_match demo_dmi_other x86_android_tablet_ids = none ∧
    x86_android_tablet_init demo_tablet_env demo_dmi_other x86_android_tablet_ids
      tablet_globals_zero [] = (-19, tablet_globals_zero, []) :=
  ⟨by decide,
   x86_android_tablet_init_no_match demo_tablet_env demo_dmi_other x86_android_tablet_ids
     tablet_globals_zero [] (by decide)⟩

/-- For contrast, a run on a matching system: on a Xiaomi Mi Pad 2 in `demo_tablet_env` the
function returns 0 after instantiating the two I2C clients of `xiaomi_mipad2_info`. -/
theorem x86_android_tablet_init_mipad2 :
    (dmi_first_match demo_dmi_mipad2 x86_android_tablet_ids).map (fun id => id.driver_data) =
      some xiaomi_mipad2_info ∧
    (x86_android_tablet_init demo_tablet_env demo_dmi_mipad2 x86_android_tablet_ids
      tablet_globals_zero []).1 = 0 ∧
    (x86_android_tablet_init demo_tablet_env demo_dmi_mipad2 x86_android_tablet_ids
      tablet_globals_zero []).2.1.i2c_clients_elems = [0x1000, 0x1000] ∧
    ((x86_android_tablet_init demo_tablet_env demo_dmi_mipad2 x86_android_tablet_ids
      tablet_globals_zero []).2.2.filterMap fun e =>
        match e with
        | TabletEvent.i2c_new_client_device _ info _ => some info.type
        | _ => none) = ["bq27520", "ktd2026"] := by
  decide

/-! ## The mock DMA-buf exporter -/

theorem alloc_pages_spec (env : DmaEnv) (k : Nat) :
    ∀ (i : Nat) (pages : List Nat) (t : List DmaEvent),
      ∃ new : List Nat, (∀ p ∈ new, p ≠ 0) ∧
        ((new.length = k ∧
          mock_dmabuf_alloc_pages env k i pages t =
            (true, i + k, pages ++ new, t ++ new.map DmaEvent.alloc_page)) ∨
         (new.length < k ∧
          mock_dmabuf_alloc_pages env k i pages t =
            (false, i + new.length, pages ++ new ++ [0],
              t ++ new.map DmaEvent.alloc_page ++ [DmaEvent.alloc_page 0]))) := by
  induction k with
  | zero =>
    intro i pages t
    exact ⟨[], by simp, Or.inl ⟨rfl, by simp [mock_dmabuf_alloc_pages]⟩⟩
  | succ k ih =>
    intro i pages t
    by_cases hp : ulong (env t) = 0
    · refine ⟨[], by simp, Or.inr ⟨by simp, ?_⟩⟩
      simp [mock_dmabuf_alloc_pages, hp]
    · obtain ⟨new, hnz, h⟩ := ih (i + 1) (pages ++ [ulong (env t)])
        (t ++ [DmaEvent.alloc_page (ulong (env t))])
      refine ⟨ulong (env t) :: new, ?_, ?_⟩
      · intro p hpm
        rcases List.mem_cons.1 hpm with h1 | h1
        · rw [h1]; exact hp
        · exact hnz p h1
      · rcases h with ⟨hl, he⟩ | ⟨hl, he⟩
        · refine Or.inl ⟨by simp [hl], ?_⟩
          simp only [mock_dmabuf_alloc_pages, hp, if_false, he]
          simp [Nat.add_assoc, Nat.add_comm 1 k]
        · refine Or.inr ⟨by simp; omega, ?_⟩
          simp only [mock_dmabuf_alloc_pages, hp, if_false, he]
          simp [Nat.add_assoc, Nat.add_comm 1 new.length]

theorem put_pages_spec (pages : List Nat) (i : Nat) :
    ∀ t : List DmaEvent, i ≤ pages.length →
      mock_dmabuf_put_pages pages i t = t ++ ((pages.take i).reverse.map DmaEvent.put_page) := by
  induction i with
  | zero => intro t _; simp [mock_dmabuf_put_pages]
  | succ i ih =>
    intro t hi
    have hlt : i < pages.length := by omega
    have hg : pages.getD i 0 = pages[i] := by
      rw [List.getD_eq_getElem?_getD, List.getElem?_eq_getElem hlt]; rfl
    have ht : pages.take (i + 1) = pages.take i ++ [pages[i]] := by
      rw [List.take_succ, List.getElem?_eq_getElem hlt]; rfl
    rw [mock_dmabuf_put_pages, ih _ (by omega), ht, hg, List.reverse_append, List.map_append,
      List.append_assoc]
    rfl

theorem release_pages_spec (pages : List Nat) (k : Nat) :
    ∀ (i : Nat) (t : List DmaEvent), i + k ≤ pages.length →
      mock_dmabuf_release_pages pages k i t =
        t ++ (((pages.drop i).take k).map DmaEvent.put_page) := by
  induction k with
  | zero => intro i t _; simp [mock_dmabuf_release_pages]
  | succ k ih =>
    intro i t hi
    have hlt : i < pages.length := by omega
    rw [mock_dmabuf_release_pages, ih _ _ (by omega)]
    have hg : pages.getD i 0 = pages[i] := by
      rw [List.getD_eq_getElem?_getD, List.getElem?_eq_getElem hlt]; rfl
    have hd : pages.drop i = pages[i] :: pages.drop (i + 1) := by
      rw [List.drop_eq_getElem_cons hlt]
    rw [hd, List.take_succ_cons]
    rw [hg]
    simp

/-- C12: `mock_dmabuf(npages)` is all-or-nothing.  With `pages` the pages that `alloc_page`
handed out (all non-`NULL`, in order), every run is one of four:
* `kmalloc` fails: nothing else happens;
* `alloc_page` fails at index `pages.length < npages`: the `pages.length` pages allocated so
  far are put, last first, one `put_page` each, and the mock is freed;
* all `npages` pages are allocated and `dma_buf_export` returns an error pointer: all of them
  are put, one `put_page` each, and the mock is freed;
* success: nothing is put or freed, the export information has `size = npages * PAGE_SIZE`,
  `flags = O_CLOEXEC` and a mock holding the `npages` pages, and `mock_dmabuf_release` on it
  puts exactly these pages, once each, and frees the mock.
In the three failing runs the result is `ERR_PTR(-ENOMEM)`, the address `2^64 - 12`. -/
theorem mock_dmabuf_all_or_nothing (env : DmaEnv) (npages : Int) (t : List DmaEvent) :
    ERR_PTR (-ENOMEM) = 2 ^ 64 - 12 ∧
    (0 ≤ npages → npages < 2 ^ 31 →
      ulong (int_to_ulong npages * PAGE_SIZE) = npages.toNat * PAGE_SIZE) ∧
    ∃ (mock : Nat) (pages : List Nat), (∀ p ∈ pages, p ≠ 0) ∧
      ((mock = 0 ∧ pages = [] ∧
        mock_dmabuf env npages t =
          { ret := ERR_PTR (-ENOMEM), exported := none,
            trace := t ++ [DmaEvent.kmalloc
              (ulong (sizeof_mock_dmabuf + ulong (int_to_ulong npages * sizeof_page_ptr))) 0] }) ∨
       (mock ≠ 0 ∧ pages.length < npages.toNat ∧
        mock_dmabuf env npages t =
          { ret := ERR_PTR (-ENOMEM), exported := none,
            trace := t ++ [DmaEvent.kmalloc
              (ulong (sizeof_mock_dmabuf + ulong (int_to_ulong npages * sizeof_page_ptr))) mock] ++
              pages.map DmaEvent.alloc_page ++ [DmaEvent.alloc_page 0] ++
              pages.reverse.map DmaEvent.put_page ++ [DmaEvent.kfree mock] }) ∨
       (mock ≠ 0 ∧ pages.length = npages.toNat ∧ ∃ e, IS_ERR e = true ∧
        mock_dmabuf env npages t =
          { ret := ERR_PTR (-ENOMEM), exported := none,
            trace := t ++ [DmaEvent.kmalloc
              (ulong (sizeof_mock_dmabuf + ulong (int_to_ulong npages * sizeof_page_ptr))) mock] ++
              pages.map DmaEvent.alloc_page ++
              [DmaEvent.dma_buf_export
                { size := ulong (int_to_ulong npages * PAGE_SIZE), flags := O_CLOEXEC,
                  priv := mock, priv_mock := { npages := npages, pages := pages } } e] ++
              pages.reverse.map DmaEvent.put_page ++ [DmaEvent.kfree mock] }) ∨
       (mock ≠ 0 ∧ pages.length = npages.toNat ∧ ∃ d, IS_ERR d = false ∧
        mock_dmabuf env npages t =
          { ret := d,
            exported := some
              { size := ulong (int_to_ulong npages * PAGE_SIZE), flags := O_CLOEXEC,
                priv := mock, priv_mock := { npages := npages, pages := pages } },
            trace := t ++ [DmaEvent.kmalloc
              (ulong (sizeof_mock_dmabuf + ulong (int_to_ulong npages * sizeof_page_ptr))) mock] ++
              pages.map DmaEvent.alloc_page ++
              [DmaEvent.dma_buf_export
                { size := ulong (int_to_ulong npages * PAGE_SIZE), flags := O_CLOEXEC,
                  priv := mock, priv_mock := { npages := npages, pages := pages } } d] } ∧
        ∀ t' : List DmaEvent,
          mock_dmabuf_release mock { npages := npages, pages := pages } t' =
            t' ++ pages.map DmaEvent.put_page ++ [DmaEvent.kfree mock])) := by
  refine ⟨by decide, ?_, ?_⟩
  · intro h0 h1
    unfold ulong int_to_ulong WORD PAGE_SIZE
    omega
  · by_cases hm : ulong (env t) = 0
    · refine ⟨0, [], by simp, Or.inl ⟨rfl, rfl, ?_⟩⟩
      simp [mock_dmabuf, hm]
    · obtain ⟨new, hnz, h⟩ := alloc_pages_spec env npages.toNat 0 []
        (t ++ [DmaEvent.kmalloc
          (ulong (sizeof_mock_dmabuf + ulong (int_to_ulong npages * sizeof_page_ptr)))
          (ulong (env t))])
      refine ⟨ulong (env t), new, hnz, ?_⟩
      rcases h with ⟨hl, he⟩ | ⟨hl, he⟩
      · -- every page was allocated
        simp only [Nat.zero_add, List.nil_append] at he
        obtain ⟨d, hd⟩ : ∃ d, d = ulong (env (t ++ [DmaEvent.kmalloc
            (ulong (sizeof_mock_dmabuf + ulong (int_to_ulong npages * sizeof_page_ptr)))
            (ulong (env t))] ++ new.map DmaEvent.alloc_page)) := ⟨_, rfl⟩
        by_cases hx : IS_ERR d = true
        · refine Or.inr (Or.inr (Or.inl ⟨hm, hl, d, hx, ?_⟩))
          have hput := put_pages_spec new npages.toNat
          simp only [mock_dmabuf, hm, if_false, he, Bool.not_true, Bool.false_eq_true, ← hd, hx,
            if_true]
          rw [hput _ (by omega), ← hl, List.take_length]
        · refine Or.inr (Or.inr (Or.inr ⟨hm, hl, d, by simpa using hx, ?_, ?_⟩))
          · simp only [mock_dmabuf, hm, if_false, he, Bool.not_true, Bool.false_eq_true, ← hd,
              hx]
          · intro t'
            unfold mock_dmabuf_release
            simp only
            rw [release_pages_spec new npages.toNat 0 t' (by omega), ← hl]
            simp
      · -- an allocation failed
        simp only [Nat.zero_add, List.nil_append] at he
        refine Or.inr (Or.inl ⟨hm, hl, ?_⟩)
        have hput := put_pages_spec (new ++ [0]) new.length
        simp only [mock_dmabuf, hm, if_false, he, Bool.not_false, if_true]
        rw [hput _ (by simp)]
        simp

theorem mock_dmabuf_all_or_nothing_witness :
    ERR_PTR (-ENOMEM) = 2 ^ 64 - 12 ∧
    ulong (int_to_ulong 3 * PAGE_SIZE) = (3 : Int).toNat * PAGE_SIZE ∧
    mock_dmabuf (demo_dma_env 3 0) 3 [] =
      { ret := 2 ^ 64 - 12, exported := none,
        trace := [DmaEvent.kmalloc 32 0x1000, DmaEvent.alloc_page 0x2000,
                  DmaEvent.alloc_page 0x3000, DmaEvent.alloc_page 0,
                  DmaEvent.put_page 0x3000, DmaEvent.put_page 0x2000,
                  DmaEvent.kfree 0x1000] } :=
  ⟨(mock_dmabuf_all_or_nothing (demo_dma_env 3 0) 3 []).1,
   (mock_dmabuf_all_or_nothing (demo_dma_env 3 0) 3 []).2.1 (by decide) (by decide),
   by decide⟩

/-! ## The instrumentation wrappers -/

theorem ulong_wsub (a b : Nat) : ulong (wsub a b) = wsub a b := by
  unfold wsub ulong WORD; omega

theorem ulong_container_of_safe (ptr off : Nat) (hp : ptr < 2 ^ 64) :
    ulong (__uncontained_container_of_safe ptr off) = __uncontained_container_of_safe ptr off := by
  unfold __uncontained_container_of_safe ERR_CAST
  simp only
  split
  · unfold ulong WORD; omega
  · exact ulong_wsub ptr off

/-- For an argument that is a primary expression with a 64-bit value, `(unsigned long)ptr`
is the value of `(ptr)`. -/
theorem cast_ulong_primary (v : Nat) (hv : v < 2 ^ 64) :
    (arg_expr.primary v).cast_ulong = (arg_expr.primary v).value := by
  show ulong v = v
  unfold ulong WORD
  omega

/-- What the `KASAN_ENABLED` wrappers do for every argument expression with a 64-bit value:
they evaluate to the value of their `__uncontained_*` body, as the build without
`KASAN_ENABLED` does, leave that value in `__container_of_ptr_out`, and leave
`(unsigned long)ptr`, read without parentheses, in `__container_of_ptr_in`; the three
`container_of` bodies equal `ptr - offsetof(type, member)` modulo `2^64`. -/
theorem kasan_wrapper_result (a_in a_out : Nat) (g : ContainerOfGlobals)
    (g5 : ContainerOfGlobalsDiff) (ptr : arg_expr) (off : Nat) (hp : ptr.value < 2 ^ 64) :
    ((container_of_expr true a_in a_out g ptr off).1 =
        __uncontained_container_of ptr.value off ∧
      (container_of_expr true a_in a_out g ptr off).1 =
        (container_of_expr false a_in a_out g ptr off).1 ∧
      (container_of_expr true a_in a_out g ptr off).2.__container_of_ptr_in =
        ptr.cast_ulong ∧
      (container_of_expr true a_in a_out g ptr off).2.__container_of_ptr_out =
        __uncontained_container_of ptr.value off) ∧
    ((container_of_safe_expr true a_in a_out g ptr off).1 =
        __uncontained_container_of_safe ptr.value off ∧
      (container_of_safe_expr true a_in a_out g ptr off).1 =
        (container_of_safe_expr false a_in a_out g ptr off).1 ∧
      (container_of_safe_expr true a_in a_out g ptr off).2.__container_of_ptr_in =
        ptr.cast_ulong ∧
      (container_of_safe_expr true a_in a_out g ptr off).2.__container_of_ptr_out =
        __uncontained_container_of_safe ptr.value off) ∧
    ((SrcuCbmc.container_of_expr true a_in a_out g5 ptr off).1 =
        SrcuCbmc.__uncontained_container_of ptr.value off ∧
      (SrcuCbmc.container_of_expr true a_in a_out g5 ptr off).1 =
        (SrcuCbmc.container_of_expr false a_in a_out g5 ptr off).1 ∧
      (SrcuCbmc.container_of_expr true a_in a_out g5 ptr off).2.__container_of_ptr_in =
        ptr.cast_ulong ∧
      (SrcuCbmc.container_of_expr true a_in a_out g5 ptr off).2.__container_of_ptr_out =
        SrcuCbmc.__uncontained_container_of ptr.value off) ∧
    ((Rtla.container_of_expr true a_in a_out g5 ptr off).1 =
        Rtla.__uncontained_container_of ptr.value off ∧
      (Rtla.container_of_expr true a_in a_out g5 ptr off).1 =
        (Rtla.container_of_expr false a_in a_out g5 ptr off).1 ∧
      (Rtla.container_of_expr true a_in a_out g5 ptr off).2.__container_of_ptr_in =
        ptr.cast_ulong ∧
      (Rtla.container_of_expr true a_in a_out g5 ptr off).2.__container_of_ptr_out =
        Rtla.__uncontained_container_of ptr.value off) ∧
    (((__uncontained_container_of ptr.value off : Nat) : Int) =
        ((ptr.value : Int) - (off : Int)) % 2 ^ 64 ∧
      ((SrcuCbmc.__uncontained_container_of ptr.value off : Nat) : Int) =
        ((ptr.value : Int) - (off : Int)) % 2 ^ 64 ∧
      ((Rtla.__uncontained_container_of ptr.value off : Nat) : Int) =
        ((ptr.value : Int) - (off : Int)) % 2 ^ 64) := by
  have hs := ulong_container_of_safe ptr.value off hp
  refine ⟨?_, ?_, ?_, ?_, ?_⟩
  · simp [container_of_expr, __uncontained_container_of, ulong_wsub]
  · simp [container_of_safe_expr, hs]
  · simp [SrcuCbmc.container_of_expr, SrcuCbmc.__uncontained_container_of, ulong_wsub]
  · simp [Rtla.container_of_expr, Rtla.__uncontained_container_of, ulong_wsub]
  · exact ⟨wsub_int _ off, wsub_int _ off, wsub_int _ off⟩

/-- C13: the `KASAN_ENABLED` wrappers keep the result but do not always leave `ptr` in
`__container_of_ptr_in`.  At the argument `q + 1`, with `q = 4112` a pointer to 8-byte
objects, and `offsetof(type, member) = 24`: the value of `ptr` is 4120; `container_of` and
`container_of_safe` of `container_of.h` and the `container_of` of `misc.h` and of `utils.h`
evaluate to 4096 with and without `KASAN_ENABLED` and leave 4096 in
`__container_of_ptr_out`; but what they leave in `__container_of_ptr_in` is
`(unsigned long)q + 1 = 4113`, not 4120. -/
theorem container_of_kasan_ptr_in_slip :
    (arg_expr.sum 4112 1 8).value = 4120 ∧
    ((container_of_expr false 7 9 ⟨0, 0, 0, 0⟩ (arg_expr.sum 4112 1 8) 24).1 = 4096 ∧
      (container_of_expr true 7 9 ⟨0, 0, 0, 0⟩ (arg_expr.sum 4112 1 8) 24).1 = 4096 ∧
      (container_of_expr true 7 9 ⟨0, 0, 0, 0⟩
        (arg_expr.sum 4112 1 8) 24).2.__container_of_ptr_out = 4096 ∧
      (container_of_expr true 7 9 ⟨0, 0, 0, 0⟩
        (arg_expr.sum 4112 1 8) 24).2.__container_of_ptr_in = 4113) ∧
    ((container_of_safe_expr false 7 9 ⟨0, 0, 0, 0⟩ (arg_expr.sum 4112 1 8) 24).1 = 4096 ∧
      (container_of_safe_expr true 7 9 ⟨0, 0, 0, 0⟩ (arg_expr.sum 4112 1 8) 24).1 = 4096 ∧
      (container_of_safe_expr true 7 9 ⟨0, 0, 0, 0⟩
        (arg_expr.sum 4112 1 8) 24).2.__container_of_ptr_out = 4096 ∧
      (container_of_safe_expr true 7 9 ⟨0, 0, 0, 0⟩
        (arg_expr.sum 4112 1 8) 24).2.__container_of_ptr_in = 4113) ∧
    ((SrcuCbmc.container_of_expr false 7 9 ⟨0, 0, 0, 0, 0⟩
        (arg_expr.sum 4112 1 8) 24).1 = 4096 ∧
      (SrcuCbmc.container_of_expr true 7 9 ⟨0, 0, 0, 0, 0⟩
        (arg_expr.sum 4112 1 8) 24).1 = 4096 ∧
      (SrcuCbmc.container_of_expr true 7 9 ⟨0, 0, 0, 0, 0⟩
        (arg_expr.sum 4112 1 8) 24).2.__container_of_ptr_out = 4096 ∧
      (SrcuCbmc.container_of_expr true 7 9 ⟨0, 0, 0, 0, 0⟩
        (arg_expr.sum 4112 1 8) 24).2.__container_of_ptr_in = 4113) ∧
    ((Rtla.container_of_expr false 7 9 ⟨0, 0, 0, 0, 0⟩
        (arg_expr.sum 4112 1 8) 24).1 = 4096 ∧
      (Rtla.container_of_expr true 7 9 ⟨0, 0, 0, 0, 0⟩
        (arg_expr.sum 4112 1 8) 24).1 = 4096 ∧
      (Rtla.container_of_expr true 7 9 ⟨0, 0, 0, 0, 0⟩
        (arg_expr.sum 4112 1 8) 24).2.__container_of_ptr_out = 4096 ∧
      (Rtla.container_of_expr true 7 9 ⟨0, 0, 0, 0, 0⟩
        (arg_expr.sum 4112 1 8) 24).2.__container_of_ptr_in = 4113) := by
  decide

end Uncontained
